import Mathlib

/-! Version-compatibility validations of `pkg/validations/cluster.go`

A shallow embedding of the validation functions of
`src/pkg/validations/cluster.go` together with theorems about them.

Conventions of the embedding:

* a Go pointer that may be `nil` is an `Option`;
* a Go `error` result is a `Result`: `pass` for `nil`, `fail msg` for an error
  whose `Error()` text is `msg`, and `nilDeref` for a run-time nil-pointer
  dereference;
* a function that writes through a pointer argument returns the objects as
  they are after the call (`Run`);
* the package `pkg/semver` and the constants of `pkg/api/v1alpha1` are not
  part of the sources at hand.  What the validations use of them is collected
  in the record `Env`, over which every theorem is universally quantified;
  the other functions of the repository and of the Go library that the
  validations call are collected, in the same way, in the record `Host`.
-/

namespace Validations

/-! ## Data model -/

/-- The type `semver.Version`: three unsigned 64-bit components and the two tags. -/
structure Version where
  Major : Nat
  Minor : Nat
  Patch : Nat
  Prerelease : String
  Buildmetadata : String
deriving DecidableEq, Repr

/-- Modelled from the spec: `semver.Version.SamePatch`, whose source is in `pkg/semver`.
Spec 4.1: "true iff major, minor, and patch components are equal
(prerelease/build ignored)". -/
def Version.SamePatch (v v2 : Version) : Bool :=
  v.Major == v2.Major && v.Minor == v2.Minor && v.Patch == v2.Patch

/-- What the validations use from `pkg/semver` and from the constants of
`pkg/api/v1alpha1`; none of these has its source at hand. -/
structure Env where
  /-- The parser `semver.New`: a version, or the text of the error. -/
  New : String → Except String Version
  /-- The method `(*Version).GreaterThan`. -/
  GreaterThan : Version → Version → Bool
  /-- How `fmt` renders a `*semver.Version` under `%v` and `%s`. -/
  versionString : Version → String
  /-- The constant `v1alpha1.DevBuildVersion`. -/
  DevBuildVersion : String
  /-- The constant `v1alpha1.EksaVersionInvalidReason`. -/
  EksaVersionInvalidReason : String

/-- The type `v1alpha1.BundlesRef`. -/
structure BundlesRef where
  APIVersion : String
  Name : String
  Namespace : String
deriving DecidableEq, Repr

/-- The type `v1alpha1.Ref`, of which the kind is read. -/
structure Ref where
  Kind : String
  Name : String
deriving DecidableEq, Repr

/-- The type `v1alpha1.ManagementCluster`: the name of the cluster that manages this one. -/
structure ManagementCluster where
  Name : String
deriving DecidableEq, Repr

/-- The fields of `v1alpha1.RegistryMirrorConfiguration` that the validations read. -/
structure RegistryMirrorConfiguration where
  Endpoint : String
  Port : String
  CACertContent : String
  Authenticate : Bool
  InsecureSkipVerify : Bool
deriving DecidableEq, Repr

/-- The fields of `v1alpha1.ClusterSpec` that the validations read.  The fields after
the first two start from the zero values of Go. -/
structure ClusterSpec where
  EksaVersion : Option String
  BundlesRef : Option BundlesRef
  KubernetesVersion : String := ""
  DatacenterRef : Ref := ⟨"", ""⟩
  ManagementCluster : ManagementCluster := ⟨""⟩
  RegistryMirrorConfiguration : Option RegistryMirrorConfiguration := none
deriving DecidableEq, Repr

/-- The failure fields of `v1alpha1.ClusterStatus`. -/
structure ClusterStatus where
  FailureMessage : Option String
  FailureReason : Option String
deriving DecidableEq, Repr

/-- The type `v1alpha1.Cluster`. -/
structure Cluster where
  Name : String
  Spec : ClusterSpec
  Status : ClusterStatus
deriving DecidableEq, Repr

/-- The type `cluster.Spec`, of which the validations read the cluster object. -/
structure Spec where
  Cluster : Cluster
deriving DecidableEq, Repr

/-- The type `types.Cluster`: the handle of a cluster the client talks to. -/
structure TypesCluster where
  Name : String
  KubeconfigFile : String
deriving DecidableEq, Repr

/-- The interface `KubectlClient`, of which the validations call `GetEksaCluster`. -/
structure KubectlClient where
  GetEksaCluster : TypesCluster → String → Except String Cluster

/-- The type `releasev1alpha1.EKSARelease`, of which `Spec.Version` is read. -/
structure EKSARelease where
  Version : String
deriving DecidableEq, Repr

/-- The outcome of a Go function returning `error`. -/
inductive Result where
  | pass
  | fail (msg : String)
  | nilDeref
deriving DecidableEq, Repr

/-- Whether the returned `error` is not `nil`. -/
def Result.isError : Result → Bool
  | .fail _ => true
  | _ => false

/-- The returned error of `ValidateManagementEksaVersion` and its two pointer
arguments as they are after the call.  The two arguments are distinct objects. -/
structure Run where
  err : Result
  mgmtCluster : Cluster
  cluster : Cluster
deriving DecidableEq, Repr

/-! ## The management/workload check -/

/-- The function `clustersHaveEksaVersion`. -/
def clustersHaveEksaVersion (mgmtCluster cluster : Cluster) : Bool :=
  if cluster.Spec.BundlesRef ≠ none then
    false
  else if cluster.Spec.EksaVersion = none ∧ mgmtCluster.Spec.EksaVersion = none then
    false
  else
    true

/-- The function `parseClusterEksaVersion`: the management and the workload version. -/
def parseClusterEksaVersion (e : Env) (mgmtCluster cluster : Cluster) :
    Except String (Version × Version) :=
  match cluster.Spec.EksaVersion with
  | none => .error "cluster has nil EksaVersion"
  | some w =>
    match mgmtCluster.Spec.EksaVersion with
    | none => .error "management cluster has nil EksaVersion"
    | some m =>
      match e.New m with
      | .error err => .error ("parsing management EksaVersion: " ++ err)
      | .ok mVersion =>
        match e.New w with
        | .error err => .error ("parsing workload EksaVersion: " ++ err)
        | .ok wVersion => .ok (mVersion, wVersion)

/-- The text built by `fmt.Sprintf` in `ValidateManagementEksaVersion`. -/
def skewMessage (e : Env) (wVersion mVersion : Version) : String :=
  "cannot upgrade workload cluster to " ++ e.versionString wVersion ++
    " while management cluster is an older version: " ++ e.versionString mVersion

/-- The function `ValidateManagementEksaVersion`.  The error of parsing the
development-build constant is discarded by the source, which leaves a nil
version to be read by `SamePatch`. -/
def ValidateManagementEksaVersion (e : Env) (mgmtCluster cluster : Cluster) : Run :=
  if !clustersHaveEksaVersion mgmtCluster cluster then
    ⟨.pass, mgmtCluster, cluster⟩
  else
    match parseClusterEksaVersion e mgmtCluster cluster with
    | .error err => ⟨.fail err, mgmtCluster, cluster⟩
    | .ok (mVersion, wVersion) =>
      match e.New e.DevBuildVersion with
      | .error _ => ⟨.nilDeref, mgmtCluster, cluster⟩
      | .ok devBuildVersion =>
        if mVersion.SamePatch devBuildVersion then
          ⟨.pass, mgmtCluster, cluster⟩
        else if e.GreaterThan wVersion mVersion then
          let errMsg := skewMessage e wVersion mVersion
          let reason := e.EksaVersionInvalidReason
          ⟨.fail errMsg, mgmtCluster,
            { cluster with Status :=
                { cluster.Status with FailureMessage := some errMsg, FailureReason := some reason } }⟩
        else
          match cluster.Status.FailureReason with
          | some oldFailure =>
            if oldFailure = e.EksaVersionInvalidReason then
              ⟨.pass, mgmtCluster,
                { cluster with Status :=
                    { cluster.Status with FailureMessage := none, FailureReason := none } }⟩
            else
              ⟨.pass, mgmtCluster, cluster⟩
          | none => ⟨.pass, mgmtCluster, cluster⟩

/-! ## The CLI exact-match check -/

/-- The function `ValidateEksaVersion`. -/
def ValidateEksaVersion (e : Env) (cliVersion : String) (workload : Spec) : Result :=
  match workload.Cluster.Spec.EksaVersion with
  | none => .pass
  | some v =>
    match e.New v with
    | .error err => .fail ("parsing cluster eksa version: " ++ err)
    | .ok parsedVersion =>
      match e.New cliVersion with
      | .error err => .fail ("parsing eksa cli version: " ++ err)
      | .ok parsedCLIVersion =>
        if !parsedVersion.SamePatch parsedCLIVersion then
          .fail "cluster's eksaVersion does not match EKS-Anywhere CLI's version"
        else
          .pass

/-! ## The management-components check -/

/-- The constant `supportedManagementComponentsMinorVersionIncrement`. -/
def supportedManagementComponentsMinorVersionIncrement : Int := 1

/-- The value of a mathematical integer wrapped into the range of `int64`. -/
def wrapInt64 (i : Int) : Int :=
  (i + 2 ^ 63) % 2 ^ 64 - 2 ^ 63

/-- The Go conversion `int64(x)` of an unsigned 64-bit `x`. -/
def int64 (x : Nat) : Int :=
  wrapInt64 (x % 2 ^ 64 : Nat)

/-- The Go subtraction of two `int64` values, which wraps around. -/
def subInt64 (a b : Int) : Int :=
  wrapInt64 (a - b)

/-- The text built by `fmt.Errorf` in `ValidateManagementComponentsVersionSkew`. -/
def componentsSkewMessage (e : Env) (newVersion clusterVersion : Version) : String :=
  "management components version " ++ e.versionString newVersion ++
    " can only be one minor version greater than cluster version " ++
    e.versionString clusterVersion

/-- The function `ValidateManagementComponentsVersionSkew`. -/
def ValidateManagementComponentsVersionSkew (e : Env) (k : KubectlClient)
    (mgmtCluster : TypesCluster) (eksaRelease : EKSARelease) : Result :=
  match k.GetEksaCluster mgmtCluster mgmtCluster.Name with
  | .error err => .fail err
  | .ok mgmt =>
    match e.New eksaRelease.Version with
    | .error err => .fail ("parsing management components version: " ++ err)
    | .ok newManagementComponentsSemVer =>
      match mgmt.Spec.EksaVersion with
      | none => .fail "management cluster EksaVersion not specified"
      | some v =>
        match e.New v with
        | .error err => .fail ("parsing management components version: " ++ err)
        | .ok managementClusterSemVer =>
          let majorVersionDifference :=
            subInt64 (int64 newManagementComponentsSemVer.Major) (int64 managementClusterSemVer.Major)
          let minorVersionDifference :=
            subInt64 (int64 newManagementComponentsSemVer.Minor) (int64 managementClusterSemVer.Minor)
          if majorVersionDifference ≠ 0 ∨
              minorVersionDifference > supportedManagementComponentsMinorVersionIncrement then
            .fail (componentsSkewMessage e newManagementComponentsSemVer managementClusterSemVer)
          else
            .pass

/-! ## A concrete semantic-version package

The theorems below hold for every `Env`.  To evaluate the validations on
concrete version strings, the following definitions give one `Env` that follows
the description of the version comparator in the specification. -/

/-- The number written by a list of decimal digits. -/
def digitsToNat (cs : List Char) : Nat :=
  cs.foldl (fun n c => 10 * n + (c.toNat - 48)) 0

/-- A numeric identifier: decimal digits, no leading zero except for `0` itself. -/
def isNumericIdent (cs : List Char) : Bool :=
  match cs with
  | [] => false
  | [c] => c.isDigit
  | c :: rest => c.isDigit && c != '0' && rest.all Char.isDigit

/-- An identifier of a prerelease or build tag: letters, digits and hyphens. -/
def isTagIdent (cs : List Char) : Bool :=
  !cs.isEmpty && cs.all (fun c => c.isAlphanum || c == '-')

/-- An identifier of a prerelease tag: a tag identifier that, when it has only
digits, is a numeric identifier. -/
def isPrereleaseIdent (cs : List Char) : Bool :=
  isTagIdent cs && (!cs.all Char.isDigit || isNumericIdent cs)

/-- The pieces of a list of characters between the occurrences of a separator. -/
def splitOnChar (sep : Char) : List Char → List (List Char)
  | [] => [[]]
  | c :: cs =>
    if c = sep then
      [] :: splitOnChar sep cs
    else
      match splitOnChar sep cs with
      | [] => [[c]]
      | x :: xs => (c :: x) :: xs

/-- The text before the first occurrence of a separator and, when there is one,
the text after it. -/
def cutAt (sep : Char) : List Char → List Char × Option (List Char)
  | [] => ([], none)
  | c :: cs =>
    if c = sep then
      ([], some cs)
    else
      ((c :: (cutAt sep cs).1), (cutAt sep cs).2)

/-- Whether an optional tag is absent or a dot-separated list of good identifiers. -/
def tagOk (good : List Char → Bool) : Option (List Char) → Bool
  | none => true
  | some cs => (splitOnChar '.' cs).all good

/-- Modelled from the spec: the parser `semver.New` of `pkg/semver`.  Spec 4.1:
"`parse(s) -> SemVer | fails(InvalidVersion)` when the string is not a valid
semantic version"; the versions of the specification are written with a leading
`v`.  The specification gives no range for the components: here a component of
`2^63` or more is out of range and the version is rejected, so that every
parsed component fits the signed 64-bit numbers in which the signed differences
of spec 4.2c are computed. -/
def semverNew (version : String) : Except String Version :=
  let cs := match version.data with
    | 'v' :: rest => rest
    | all => all
  let build := (cutAt '+' cs).2
  let pre := (cutAt '-' (cutAt '+' cs).1).2
  match splitOnChar '.' (cutAt '-' (cutAt '+' cs).1).1 with
  | [major, minor, patch] =>
    if isNumericIdent major && isNumericIdent minor && isNumericIdent patch
        && decide (digitsToNat major < 2 ^ 63) && decide (digitsToNat minor < 2 ^ 63)
        && decide (digitsToNat patch < 2 ^ 63)
        && tagOk isPrereleaseIdent pre && tagOk isTagIdent build then
      .ok ⟨digitsToNat major, digitsToNat minor, digitsToNat patch,
        String.mk (pre.getD []), String.mk (build.getD [])⟩
    else
      .error ("invalid semantic version " ++ version)
  | _ => .error ("invalid semantic version " ++ version)

/-- Whether the first text comes strictly before the second in the order of the
character codes. -/
def charsLess : List Char → List Char → Bool
  | _, [] => false
  | [], _ :: _ => true
  | a :: as, b :: bs =>
    if a.toNat < b.toNat then true
    else if b.toNat < a.toNat then false
    else charsLess as bs

/-- Whether the first prerelease identifier has a higher precedence than the second:
numeric identifiers compare as numbers and are lower than the others, which
compare as text. -/
def identGreater (a b : List Char) : Bool :=
  match a.all Char.isDigit, b.all Char.isDigit with
  | true, true => decide (digitsToNat b < digitsToNat a)
  | true, false => false
  | false, true => true
  | false, false => charsLess b a

/-- Whether the first list of prerelease identifiers has a higher precedence than the
second: the first differing identifier decides, and a longer list is higher
than its beginning. -/
def identsGreater : List (List Char) → List (List Char) → Bool
  | [], _ => false
  | _ :: _, [] => true
  | a :: as, b :: bs => if a = b then identsGreater as bs else identGreater a b

/-- Modelled from the spec: the method `GreaterThan` of `pkg/semver`.  Spec 4.1:
"strict total order comparison (major, then minor, then patch; ... treat absence
of prerelease as greater than presence, consistent with standard semver
precedence)". -/
def semverGreaterThan (v v2 : Version) : Bool :=
  if v.Major ≠ v2.Major then decide (v2.Major < v.Major)
  else if v.Minor ≠ v2.Minor then decide (v2.Minor < v.Minor)
  else if v.Patch ≠ v2.Patch then decide (v2.Patch < v.Patch)
  else if v.Prerelease = "" then decide (v2.Prerelease ≠ "")
  else if v2.Prerelease = "" then false
  else identsGreater (splitOnChar '.' v.Prerelease.data) (splitOnChar '.' v2.Prerelease.data)

/-- The decimal digits of a number, given enough fuel. -/
def natDigits : Nat → Nat → List Char
  | 0, _ => []
  | fuel + 1, n =>
    if n < 10 then [Char.ofNat (48 + n)]
    else natDigits fuel (n / 10) ++ [Char.ofNat (48 + n % 10)]

/-- A rendering of a version as text: `v<major>.<minor>.<patch>`, then the tags. -/
def semverString (v : Version) : String :=
  String.mk (['v'] ++ natDigits 20 v.Major ++ ['.'] ++ natDigits 20 v.Minor ++ ['.']
    ++ natDigits 20 v.Patch)
    ++ (if v.Prerelease = "" then "" else "-" ++ v.Prerelease)
    ++ (if v.Buildmetadata = "" then "" else "+" ++ v.Buildmetadata)

/-- An environment for concrete evaluation: the package above, with `v0.0.0-dev` as the
development-build version and `EksaVersionInvalid` as the failure reason. -/
def stdEnv : Env where
  New := semverNew
  GreaterThan := semverGreaterThan
  versionString := semverString
  DevBuildVersion := "v0.0.0-dev"
  EksaVersionInvalidReason := "EksaVersionInvalid"

/-- A cluster named `name` with the given version, bundles reference and status. -/
def exampleCluster (name : String) (eksaVersion : Option String)
    (bundlesRef : Option BundlesRef) (status : ClusterStatus) : Cluster :=
  { Name := name, Spec := { EksaVersion := eksaVersion, BundlesRef := bundlesRef }, Status := status }

/-- The status without a recorded failure. -/
def noFailure : ClusterStatus :=
  { FailureMessage := none, FailureReason := none }

/-- The example status of a failure left by an earlier run of the version check. -/
def staleFailure : ClusterStatus :=
  { FailureMessage := some "stale message", FailureReason := some "EksaVersionInvalid" }

/-! ## Definitions used to state the theorems -/

/-- The versions on which `ValidateManagementEksaVersion` evaluates `GreaterThan`, as
`(mVersion, wVersion)`, when the call gets as far as the comparison. -/
def comparedVersions (e : Env) (mgmtCluster cluster : Cluster) : Option (Version × Version) :=
  if clustersHaveEksaVersion mgmtCluster cluster then
    match parseClusterEksaVersion e mgmtCluster cluster with
    | .error _ => none
    | .ok (mVersion, wVersion) =>
      match e.New e.DevBuildVersion with
      | .error _ => none
      | .ok devBuildVersion =>
        if mVersion.SamePatch devBuildVersion then none else some (mVersion, wVersion)
  else
    none

/-- The cluster with its failure status set to the version-skew violation `msg`. -/
def withSkewFailure (e : Env) (cluster : Cluster) (msg : String) : Cluster :=
  { cluster with Status :=
      { cluster.Status with
          FailureMessage := some msg, FailureReason := some e.EksaVersionInvalidReason } }

/-- The cluster with both failure fields cleared. -/
def withFailureCleared (cluster : Cluster) : Cluster :=
  { cluster with Status := { cluster.Status with FailureMessage := none, FailureReason := none } }

/-- A client whose lookup finds the management cluster at the given version. -/
def exampleClient (eksaVersion : Option String) : KubectlClient :=
  { GetEksaCluster := fun _ _ => .ok (exampleCluster "mgmt" eksaVersion none noFailure) }

/-! ## The outside of the validations

The remaining validations call readers, clients, the disk, the network and a TLS
validator.  Each of these is a record of functions giving the answer of the call,
and a validation that makes such calls returns, next to its result, the list of
the calls it has made, in order. -/

/-- A call to the outside made by a validation. -/
inductive Effect where
  /-- The call `bundles.Read(reader, bundlesOverride)`. -/
  | readBundles (bundlesOverride : String)
  /-- The call `reader.ReadBundlesForVersion(version)`. -/
  | readBundlesForVersion (version : String)
  /-- The call `os.ReadFile(path)`. -/
  | readFile (path : String)
  /-- The call `http.Get(url)`. -/
  | httpGet (url : String)
  /-- The call `ValidateExtendedK8sVersionSupport(...)`, which is handed the Kubernetes
  client. -/
  | extendedK8sVersionSupport
  /-- The call `tlsValidator.IsSignedByUnknownAuthority(host, port)`. -/
  | isSignedByUnknownAuthority (host port : String)
  /-- The call `tlsValidator.ValidateCert(host, port, cert)`. -/
  | validateCert (host port cert : String)
deriving DecidableEq, Repr

/-- The type `releasev1alpha1.EksDRelease`, of which the release reference is read. -/
structure EksDRelease where
  EksDReleaseUrl : String
deriving DecidableEq, Repr

/-- The type `releasev1alpha1.VersionsBundle`: the bundle of one Kubernetes version. -/
structure VersionsBundle where
  KubeVersion : String
  EksD : EksDRelease
deriving DecidableEq, Repr

/-- The type `releasev1alpha1.Bundles`. -/
structure Bundles where
  VersionsBundles : List VersionsBundle
deriving DecidableEq, Repr

/-- The type `eksdv1alpha1.Release`: the decoded release manifest. -/
structure Release where
  Content : String
deriving DecidableEq, Repr

/-- The type `http.Response`: the status code, and what `io.ReadAll` gets from the body. -/
structure Response where
  StatusCode : Int
  Body : Except String String

/-- The type `manifests.Reader`, through which `bundles.Read` and
`ReadBundlesForVersion` obtain a bundle. -/
structure Reader where
  Read : String → Except String Bundles
  ReadBundlesForVersion : String → Except String Bundles

/-- The interface `kubernetes.Client`, of which `Get` is called with a name and a
namespace; the answer is the text of the error, if any. -/
structure Client where
  Get : String → String → Option String

/-- The interface `TlsValidator`. -/
structure TlsValidator where
  IsSignedByUnknownAuthority : String → String → Except String Bool
  ValidateCert : String → String → String → Option String

/-- What the validations use of the rest of the repository and of the Go library, none of
which has its source at hand. -/
structure Host where
  /-- The function `ShouldSkipBundleSignatureValidation`. -/
  ShouldSkipBundleSignatureValidation : Option String → Except String Bool
  /-- The function `cluster.GetVersionsBundle`. -/
  GetVersionsBundle : String → Bundles → Except String VersionsBundle
  /-- The function `os.ReadFile`. -/
  ReadFile : String → Except String String
  /-- The function `http.Get`. -/
  HttpGet : String → Except String Response
  /-- The function `yaml.Unmarshal` into a release manifest. -/
  Unmarshal : String → Except String Release
  /-- The function `ValidateExtendedK8sVersionSupport`. -/
  ValidateExtendedK8sVersionSupport : Cluster → Bundles → Release → Client → Result
  /-- The function `releasev1alpha1.GenerateEKSAReleaseName`. -/
  GenerateEKSAReleaseName : String → String
  /-- The constant `constants.EksaSystemNamespace`. -/
  EksaSystemNamespace : String
  /-- The method `(*Cluster).IsManaged`. -/
  IsManaged : Cluster → Bool

/-- The constant `releaseV022`. -/
def releaseV022 : String := "v0.22.0"

/-- Whether the first list of characters starts with the second. -/
def startsWithChars : List Char → List Char → Bool
  | _, [] => true
  | [], _ :: _ => false
  | c :: cs, d :: ds => c == d && startsWithChars cs ds

/-- Whether the second list of characters occurs in the first. -/
def containsChars : List Char → List Char → Bool
  | [], sub => sub.isEmpty
  | c :: cs, sub => startsWithChars (c :: cs) sub || containsChars cs sub

/-- The Go function `strings.Contains`. -/
def stringsContains (s substr : String) : Bool :=
  containsChars s.data substr.data

/-! ## The management cluster name and the release on the management cluster -/

/-- The function `ValidateManagementClusterName`. -/
def ValidateManagementClusterName (h : Host) (k : KubectlClient) (mgmtCluster : TypesCluster)
    (mgmtClusterName : String) : Result :=
  match k.GetEksaCluster mgmtCluster mgmtClusterName with
  | .error err => .fail err
  | .ok cluster =>
    if h.IsManaged cluster then
      .fail (mgmtClusterName ++ " is not a valid management cluster")
    else
      .pass

/-- The function `ValidateEksaReleaseExistOnManagement`.  The source dereferences the
version pointer without a test. -/
def ValidateEksaReleaseExistOnManagement (h : Host) (k : Client) (workload : Cluster) : Result :=
  match workload.Spec.EksaVersion with
  | none => .nilDeref
  | some v =>
    match k.Get (h.GenerateEKSAReleaseName v) h.EksaSystemNamespace with
    | some err => .fail err
    | none => .pass

/-! ## The registry mirror certificate -/

/-- The function `ValidateCertForRegistryMirror`, with the calls to the TLS validator. -/
def ValidateCertForRegistryMirror (clusterSpec : Spec) (tlsValidator : TlsValidator) :
    Result × List Effect :=
  match clusterSpec.Cluster.Spec.RegistryMirrorConfiguration with
  | none => (.pass, [])
  | some mirror =>
    if mirror.InsecureSkipVerify then
      (.pass, [])
    else
      match tlsValidator.IsSignedByUnknownAuthority mirror.Endpoint mirror.Port with
      | .error err =>
        (.fail ("validating registry mirror endpoint: " ++ err),
          [.isSignedByUnknownAuthority mirror.Endpoint mirror.Port])
      | .ok authorityUnknown =>
        if mirror.CACertContent = "" ∧ authorityUnknown = true then
          (.fail ("registry " ++ mirror.Endpoint ++
              " is using self-signed certs, please provide the certificate using caCertContent field. Or use insecureSkipVerify field to skip registry certificate verification"),
            [.isSignedByUnknownAuthority mirror.Endpoint mirror.Port])
        else if mirror.CACertContent ≠ "" then
          match tlsValidator.ValidateCert mirror.Endpoint mirror.Port mirror.CACertContent with
          | some err =>
            (.fail ("invalid registry certificate: " ++ err),
              [.isSignedByUnknownAuthority mirror.Endpoint mirror.Port,
               .validateCert mirror.Endpoint mirror.Port mirror.CACertContent])
          | none =>
            (.pass,
              [.isSignedByUnknownAuthority mirror.Endpoint mirror.Port,
               .validateCert mirror.Endpoint mirror.Port mirror.CACertContent])
        else
          (.pass, [.isSignedByUnknownAuthority mirror.Endpoint mirror.Port])

/-! ## The extended Kubernetes version support -/

/-- The function `getReleaseManifestFromBundle`, with the calls to the disk and to the
network. -/
def getReleaseManifestFromBundle (h : Host) (clusterSpec : Cluster) (bundle : Bundles) :
    Except String Release × List Effect :=
  match h.GetVersionsBundle clusterSpec.Spec.KubernetesVersion bundle with
  | .error err =>
    (.error ("getting versions bundle for " ++ clusterSpec.Spec.KubernetesVersion ++
      " kubernetes version: " ++ err), [])
  | .ok versionsBundle =>
    if stringsContains versionsBundle.EksD.EksDReleaseUrl "eks-anywhere-downloads" then
      let releaseManifestFilePath := versionsBundle.EksD.EksDReleaseUrl
      match h.ReadFile releaseManifestFilePath with
      | .error err =>
        (.error ("reading eksd release manifest file: " ++ err),
          [.readFile releaseManifestFilePath])
      | .ok contents =>
        match h.Unmarshal contents with
        | .error err =>
          (.error ("unmarshalling eksd release manifest file: " ++ err),
            [.readFile releaseManifestFilePath])
        | .ok releaseManifest => (.ok releaseManifest, [.readFile releaseManifestFilePath])
    else
      match h.HttpGet versionsBundle.EksD.EksDReleaseUrl with
      | .error err =>
        (.error ("fetching eksd release manifest from URL " ++
            versionsBundle.EksD.EksDReleaseUrl ++ ": " ++ err),
          [.httpGet versionsBundle.EksD.EksDReleaseUrl])
      | .ok resp =>
        if resp.StatusCode ≠ 200 then
          (.error ("fetching eksd release manifest from URL " ++
              versionsBundle.EksD.EksDReleaseUrl ++ ": received status code " ++
              toString resp.StatusCode),
            [.httpGet versionsBundle.EksD.EksDReleaseUrl])
        else
          match resp.Body with
          | .error err =>
            (.error ("reading eksd release manifest response body: " ++ err),
              [.httpGet versionsBundle.EksD.EksDReleaseUrl])
          | .ok contents =>
            match h.Unmarshal contents with
            | .error err =>
              (.error ("unmarshalling eksd release manifest from URL: " ++ err),
                [.httpGet versionsBundle.EksD.EksDReleaseUrl])
            | .ok releaseManifest =>
              (.ok releaseManifest, [.httpGet versionsBundle.EksD.EksDReleaseUrl])

/-- The end of `ValidateExtendedKubernetesVersionSupport`, from the bundle `b` on, after
the calls `before`. -/
def validateWithBundle (h : Host) (clusterSpec : Cluster) (k : Client) (b : Bundles)
    (before : List Effect) : Result × List Effect :=
  match getReleaseManifestFromBundle h clusterSpec b with
  | (.error err, calls) => (.fail ("getting release manifest: " ++ err), before ++ calls)
  | (.ok releaseManifest, calls) =>
    (h.ValidateExtendedK8sVersionSupport clusterSpec b releaseManifest k,
      before ++ calls ++ [.extendedK8sVersionSupport])

/-- The function `ValidateExtendedKubernetesVersionSupport`, with the calls it makes.
After a negative answer of `ShouldSkipBundleSignatureValidation` the source
dereferences the version pointer without a test. -/
def ValidateExtendedKubernetesVersionSupport (h : Host) (clusterSpec : Cluster)
    (reader : Reader) (k : Client) (bundlesOverride : String) : Result × List Effect :=
  if clusterSpec.Spec.DatacenterRef.Kind = "SnowDatacenterConfig" then
    (.pass, [])
  else if bundlesOverride ≠ "" then
    match reader.Read bundlesOverride with
    | .error err => (.fail ("getting bundle for cluster: " ++ err), [.readBundles bundlesOverride])
    | .ok b => validateWithBundle h clusterSpec k b [.readBundles bundlesOverride]
  else
    match h.ShouldSkipBundleSignatureValidation clusterSpec.Spec.EksaVersion with
    | .error err => (.fail err, [])
    | .ok skip =>
      if skip then
        (.pass, [])
      else
        match clusterSpec.Spec.EksaVersion with
        | none => (.nilDeref, [])
        | some eksaVersion =>
          match reader.ReadBundlesForVersion eksaVersion with
          | .error err =>
            (.fail ("getting bundle for cluster: " ++ err), [.readBundlesForVersion eksaVersion])
          | .ok b => validateWithBundle h clusterSpec k b [.readBundlesForVersion eksaVersion]

/-! ## Example objects for the outside -/

/-- Modelled from the spec: the function `ShouldSkipBundleSignatureValidation`, whose source
is in another file of the package.  Spec 4.5: "compare the cluster's EksaVersion
against a fixed cutoff version (`v0.22.0`); versions at or below the cutoff skip
validation".  The specification does not say what happens without a version;
here it is then not skipped. -/
def shouldSkipBundleSignatureValidation (e : Env) (eksaVersion : Option String) :
    Except String Bool :=
  match eksaVersion with
  | none => .ok false
  | some v =>
    match e.New v with
    | .error err => .error ("parsing eksa version: " ++ err)
    | .ok parsed =>
      match e.New releaseV022 with
      | .error err => .error ("parsing cutoff version: " ++ err)
      | .ok cutoff => .ok (!e.GreaterThan parsed cutoff)

/-- Modelled from the spec: the function `cluster.GetVersionsBundle`.  Spec 4.4: "select the
sub-bundle matching the cluster's declared Kubernetes version; fails with
`VersionNotFound` if absent". -/
def getVersionsBundle (kubeVersion : String) (bundles : Bundles) : Except String VersionsBundle :=
  match bundles.VersionsBundles.find? (fun vb => vb.KubeVersion == kubeVersion) with
  | some vb => .ok vb
  | none => .error ("kubernetes version " ++ kubeVersion ++ " is not supported by bundles manifest")

/-- Modelled from the spec: the method `IsManaged`.  Spec 3: "managed-flag (is this a
workload cluster pointing at a management cluster)" and "a cluster may be its own
management cluster only if unmanaged". -/
def isManaged (c : Cluster) : Bool :=
  c.Spec.ManagementCluster.Name != "" && c.Spec.ManagementCluster.Name != c.Name

/-- A host for concrete evaluation with the given disk and network: any non-empty
content decodes, and the extended-support policy passes. -/
def exampleHost (files : String → Except String String)
    (web : String → Except String Response) : Host where
  ShouldSkipBundleSignatureValidation := shouldSkipBundleSignatureValidation stdEnv
  GetVersionsBundle := getVersionsBundle
  ReadFile := files
  HttpGet := web
  Unmarshal := fun contents =>
    if contents = "" then .error "empty manifest" else .ok ⟨contents⟩
  ValidateExtendedK8sVersionSupport := fun _ _ _ _ => .pass
  GenerateEKSAReleaseName := fun version => "eksa-" ++ version
  EksaSystemNamespace := "eksa-system"
  IsManaged := isManaged

/-- A disk without files. -/
def noFiles : String → Except String String :=
  fun path => .error ("open " ++ path ++ ": no such file or directory")

/-- A network on which every URL answers with status 404. -/
def notFoundWeb : String → Except String Response :=
  fun _ => .ok ⟨404, .ok "not found"⟩

/-- A reader that finds no bundle. -/
def failingReader : Reader where
  Read := fun _ => .error "bundle not readable"
  ReadBundlesForVersion := fun _ => .error "no bundle for this version"

/-- A reader that finds the given bundle. -/
def exampleReader (b : Bundles) : Reader where
  Read := fun _ => .ok b
  ReadBundlesForVersion := fun _ => .ok b

/-- A Kubernetes client that finds every object. -/
def exampleK8sClient : Client where
  Get := fun _ _ => none

/-- A cluster for the extended-support check: version, Kubernetes version and the kind of
its datacenter. -/
def exampleSupportCluster (eksaVersion : Option String) (kubernetesVersion kind : String) :
    Cluster :=
  { Name := "w",
    Spec := { EksaVersion := eksaVersion, BundlesRef := none,
              KubernetesVersion := kubernetesVersion, DatacenterRef := ⟨kind, "dc"⟩ },
    Status := noFailure }

/-- A bundle with one Kubernetes version whose release reference is `url`. -/
def exampleBundles (kubeVersion url : String) : Bundles :=
  { VersionsBundles := [⟨kubeVersion, ⟨url⟩⟩] }

/-- A client whose lookup gives the same answer for every name. -/
def lookupClient (answer : Except String Cluster) : KubectlClient :=
  { GetEksaCluster := fun _ _ => answer }

/-- A cluster named `name` that names `managedBy` as its management cluster. -/
def exampleManagedCluster (name managedBy : String) : Cluster :=
  { Name := name,
    Spec := { EksaVersion := some "v0.20.0", BundlesRef := none,
              ManagementCluster := ⟨managedBy⟩ },
    Status := noFailure }

/-- A TLS validator that gives the same two answers for every endpoint. -/
def exampleTlsValidator (authorityUnknown : Except String Bool) (certError : Option String) :
    TlsValidator :=
  { IsSignedByUnknownAuthority := fun _ _ => authorityUnknown,
    ValidateCert := fun _ _ _ => certError }

/-- A cluster specification with the given registry mirror. -/
def exampleMirrorSpec (mirror : Option RegistryMirrorConfiguration) : Spec :=
  { Cluster :=
      { Name := "w",
        Spec := { EksaVersion := some "v0.20.0", BundlesRef := none,
                  RegistryMirrorConfiguration := mirror },
        Status := noFailure } }

/-- A registry mirror at `registry.local:443` with the given certificate content and
`InsecureSkipVerify` flag. -/
def exampleMirror (caCertContent : String) (insecureSkipVerify : Bool) :
    RegistryMirrorConfiguration :=
  { Endpoint := "registry.local", Port := "443", CACertContent := caCertContent,
    Authenticate := false, InsecureSkipVerify := insecureSkipVerify }

/-! ## Lemmas on the management/workload check -/

/-- With a bundles reference on the workload cluster the clusters do not count as
having versions. -/
theorem clustersHaveEksaVersion_bundlesRef (mgmtCluster cluster : Cluster)
    (h : cluster.Spec.BundlesRef ≠ none) :
    clustersHaveEksaVersion mgmtCluster cluster = false := by
  simp [clustersHaveEksaVersion, h]

/-- Without a bundles reference the clusters count as having versions unless both
versions are missing. -/
theorem clustersHaveEksaVersion_eq (mgmtCluster cluster : Cluster)
    (h : cluster.Spec.BundlesRef = none) :
    clustersHaveEksaVersion mgmtCluster cluster =
      !(decide (cluster.Spec.EksaVersion = none) && decide (mgmtCluster.Spec.EksaVersion = none)) := by
  unfold clustersHaveEksaVersion
  by_cases h1 : cluster.Spec.EksaVersion = none <;>
    by_cases h2 : mgmtCluster.Spec.EksaVersion = none <;> simp [h, h1, h2]

/-- Both versions present and parsed: `parseClusterEksaVersion` returns them. -/
theorem parseClusterEksaVersion_ok (e : Env) (mgmtCluster cluster : Cluster)
    (m w : String) (mV wV : Version)
    (hm : mgmtCluster.Spec.EksaVersion = some m) (hw : cluster.Spec.EksaVersion = some w)
    (hpm : e.New m = .ok mV) (hpw : e.New w = .ok wV) :
    parseClusterEksaVersion e mgmtCluster cluster = .ok (mV, wV) := by
  simp [parseClusterEksaVersion, hm, hw, hpm, hpw]

/-- What `parseClusterEksaVersion` has read when it returns two versions. -/
theorem parseClusterEksaVersion_ok_inv (e : Env) (mgmtCluster cluster : Cluster)
    (mV wV : Version) (h : parseClusterEksaVersion e mgmtCluster cluster = .ok (mV, wV)) :
    ∃ m w, mgmtCluster.Spec.EksaVersion = some m ∧ cluster.Spec.EksaVersion = some w ∧
      e.New m = .ok mV ∧ e.New w = .ok wV := by
  unfold parseClusterEksaVersion at h
  cases hw : cluster.Spec.EksaVersion with
  | none => simp [hw] at h
  | some w =>
    cases hm : mgmtCluster.Spec.EksaVersion with
    | none => simp [hw, hm] at h
    | some m =>
      cases hpm : e.New m with
      | error x => simp [hw, hm, hpm] at h
      | ok a =>
        cases hpw : e.New w with
        | error x => simp [hw, hm, hpm, hpw] at h
        | ok b =>
          simp [hw, hm, hpm, hpw] at h
          exact ⟨m, w, rfl, rfl, by rw [hpm, h.1], by rw [hpw, h.2]⟩

/-- The body of `ValidateManagementEksaVersion` once both versions and the
development-build version are parsed. -/
theorem ValidateManagementEksaVersion_parsed (e : Env) (mgmtCluster cluster : Cluster)
    (m w : String) (mV wV dV : Version)
    (hB : cluster.Spec.BundlesRef = none)
    (hm : mgmtCluster.Spec.EksaVersion = some m) (hw : cluster.Spec.EksaVersion = some w)
    (hpm : e.New m = .ok mV) (hpw : e.New w = .ok wV)
    (hd : e.New e.DevBuildVersion = .ok dV) :
    ValidateManagementEksaVersion e mgmtCluster cluster =
      if mV.SamePatch dV then
        ⟨.pass, mgmtCluster, cluster⟩
      else if e.GreaterThan wV mV then
        ⟨.fail (skewMessage e wV mV), mgmtCluster,
          { cluster with Status :=
              { cluster.Status with
                  FailureMessage := some (skewMessage e wV mV),
                  FailureReason := some e.EksaVersionInvalidReason } }⟩
      else if cluster.Status.FailureReason = some e.EksaVersionInvalidReason then
        ⟨.pass, mgmtCluster,
          { cluster with Status :=
              { cluster.Status with FailureMessage := none, FailureReason := none } }⟩
      else
        ⟨.pass, mgmtCluster, cluster⟩ := by
  have hc : clustersHaveEksaVersion mgmtCluster cluster = true := by
    rw [clustersHaveEksaVersion_eq _ _ hB]; simp [hm, hw]
  have hp := parseClusterEksaVersion_ok e mgmtCluster cluster m w mV wV hm hw hpm hpw
  unfold ValidateManagementEksaVersion
  simp only [hc, hp, hd]
  by_cases h1 : mV.SamePatch dV = true
  · simp [h1]
  · by_cases h2 : e.GreaterThan wV mV = true
    · simp [h1, h2]
    · cases hr : cluster.Status.FailureReason with
      | none => simp [h1, h2]
      | some r =>
        by_cases h3 : r = e.EksaVersionInvalidReason
        · simp [h1, h2, h3]
        · simp [h1, h2, h3]

/-- The first two characters of a version-skew message are `ca`. -/
theorem skewMessage_data (e : Env) (wV mV : Version) :
    ∃ rest, (skewMessage e wV mV).data = 'c' :: 'a' :: rest := by
  refine ⟨"nnot upgrade workload cluster to ".data ++ (e.versionString wV).data ++
    " while management cluster is an older version: ".data ++ (e.versionString mV).data, ?_⟩
  have h : "cannot upgrade workload cluster to ".data =
      'c' :: 'a' :: "nnot upgrade workload cluster to ".data := by decide
  simp only [skewMessage, String.data_append, h, List.cons_append, List.append_assoc]

/-- An error of `parseClusterEksaVersion` is not a version-skew message. -/
theorem parseClusterEksaVersion_error_ne_skew (e : Env) (mgmtCluster cluster : Cluster)
    (x : String) (h : parseClusterEksaVersion e mgmtCluster cluster = .error x)
    (wV mV : Version) : x ≠ skewMessage e wV mV := by
  obtain ⟨rest, hrest⟩ := skewMessage_data e wV mV
  intro hx
  have hdata : x.data = 'c' :: 'a' :: rest := by rw [hx, hrest]
  unfold parseClusterEksaVersion at h
  cases hw : cluster.Spec.EksaVersion with
  | none =>
    simp only [hw] at h
    injection h with h
    have h0 : "cluster has nil EksaVersion".data =
        'c' :: 'l' :: "uster has nil EksaVersion".data := by decide
    rw [← h, h0] at hdata
    simp at hdata
  | some w =>
    cases hm : mgmtCluster.Spec.EksaVersion with
    | none =>
      simp only [hw, hm] at h
      injection h with h
      have h0 : "management cluster has nil EksaVersion".data =
          'm' :: "anagement cluster has nil EksaVersion".data := by decide
      rw [← h, h0] at hdata
      simp at hdata
    | some m =>
      cases hpm : e.New m with
      | error y =>
        simp only [hw, hm, hpm] at h
        injection h with h
        rw [← h, String.data_append] at hdata
        have h0 : "parsing management EksaVersion: ".data =
            'p' :: "arsing management EksaVersion: ".data := by decide
        rw [h0] at hdata
        simp at hdata
      | ok a =>
        cases hpw : e.New w with
        | error y =>
          simp only [hw, hm, hpm, hpw] at h
          injection h with h
          rw [← h, String.data_append] at hdata
          have h0 : "parsing workload EksaVersion: ".data =
              'p' :: "arsing workload EksaVersion: ".data := by decide
          rw [h0] at hdata
          simp at hdata
        | ok b => simp [hw, hm, hpm, hpw] at h

/-- The paths of `ValidateManagementEksaVersion`: an early return that leaves both
objects as they were, or one of the three ends of the comparison. -/
theorem ValidateManagementEksaVersion_cases (e : Env) (mgmtCluster cluster : Cluster) :
    (comparedVersions e mgmtCluster cluster = none ∧
      (ValidateManagementEksaVersion e mgmtCluster cluster = ⟨.pass, mgmtCluster, cluster⟩ ∨
       ValidateManagementEksaVersion e mgmtCluster cluster = ⟨.nilDeref, mgmtCluster, cluster⟩ ∨
       ∃ x, parseClusterEksaVersion e mgmtCluster cluster = .error x ∧
         ValidateManagementEksaVersion e mgmtCluster cluster =
           ⟨.fail x, mgmtCluster, cluster⟩)) ∨
    (∃ mV wV, comparedVersions e mgmtCluster cluster = some (mV, wV) ∧
      ((e.GreaterThan wV mV = true ∧
          ValidateManagementEksaVersion e mgmtCluster cluster =
            ⟨.fail (skewMessage e wV mV), mgmtCluster,
              withSkewFailure e cluster (skewMessage e wV mV)⟩) ∨
       (e.GreaterThan wV mV = false ∧
          cluster.Status.FailureReason = some e.EksaVersionInvalidReason ∧
          ValidateManagementEksaVersion e mgmtCluster cluster =
            ⟨.pass, mgmtCluster, withFailureCleared cluster⟩) ∨
       (e.GreaterThan wV mV = false ∧
          cluster.Status.FailureReason ≠ some e.EksaVersionInvalidReason ∧
          ValidateManagementEksaVersion e mgmtCluster cluster =
            ⟨.pass, mgmtCluster, cluster⟩))) := by
  cases hc : clustersHaveEksaVersion mgmtCluster cluster with
  | false =>
    refine Or.inl ⟨?_, Or.inl ?_⟩
    · simp [comparedVersions, hc]
    · simp [ValidateManagementEksaVersion, hc]
  | true =>
    cases hp : parseClusterEksaVersion e mgmtCluster cluster with
    | error x =>
      refine Or.inl ⟨?_, Or.inr (Or.inr ⟨x, rfl, ?_⟩)⟩
      · simp [comparedVersions, hc, hp]
      · simp [ValidateManagementEksaVersion, hc, hp]
    | ok p =>
      obtain ⟨mV, wV⟩ := p
      cases hd : e.New e.DevBuildVersion with
      | error x =>
        refine Or.inl ⟨?_, Or.inr (Or.inl ?_)⟩
        · simp [comparedVersions, hc, hp, hd]
        · simp [ValidateManagementEksaVersion, hc, hp, hd]
      | ok dV =>
        cases h1 : mV.SamePatch dV with
        | true =>
          refine Or.inl ⟨?_, Or.inl ?_⟩
          · simp [comparedVersions, hc, hp, hd, h1]
          · simp [ValidateManagementEksaVersion, hc, hp, hd, h1]
        | false =>
          have hcv : comparedVersions e mgmtCluster cluster = some (mV, wV) := by
            simp [comparedVersions, hc, hp, hd, h1]
          refine Or.inr ⟨mV, wV, hcv, ?_⟩
          cases h2 : e.GreaterThan wV mV with
          | true =>
            refine Or.inl ⟨rfl, ?_⟩
            simp [ValidateManagementEksaVersion, withSkewFailure, hc, hp, hd, h1, h2]
          | false =>
            cases hr : cluster.Status.FailureReason with
            | none =>
              refine Or.inr (Or.inr ⟨rfl, by simp, ?_⟩)
              simp [ValidateManagementEksaVersion, hc, hp, hd, h1, h2, hr]
            | some r =>
              by_cases h3 : r = e.EksaVersionInvalidReason
              · refine Or.inr (Or.inl ⟨rfl, by simp [h3], ?_⟩)
                simp [ValidateManagementEksaVersion, withFailureCleared, hc, hp, hd, h1, h2, hr, h3]
              · refine Or.inr (Or.inr ⟨rfl, by simp [h3], ?_⟩)
                simp [ValidateManagementEksaVersion, hc, hp, hd, h1, h2, hr, h3]

/-- What has happened when the call gets as far as the comparison. -/
theorem comparedVersions_some_inv (e : Env) (mgmtCluster cluster : Cluster) (mV wV : Version)
    (h : comparedVersions e mgmtCluster cluster = some (mV, wV)) :
    clustersHaveEksaVersion mgmtCluster cluster = true ∧
    parseClusterEksaVersion e mgmtCluster cluster = .ok (mV, wV) ∧
    ∃ dV, e.New e.DevBuildVersion = .ok dV ∧ mV.SamePatch dV = false := by
  unfold comparedVersions at h
  cases hc : clustersHaveEksaVersion mgmtCluster cluster with
  | false => simp [hc] at h
  | true =>
    cases hp : parseClusterEksaVersion e mgmtCluster cluster with
    | error x => simp [hc, hp] at h
    | ok p =>
      obtain ⟨a, b⟩ := p
      cases hd : e.New e.DevBuildVersion with
      | error x => simp [hc, hp, hd] at h
      | ok dV =>
        cases h1 : a.SamePatch dV with
        | true => simp [hc, hp, hd, h1] at h
        | false =>
          simp [hc, hp, hd, h1] at h
          obtain ⟨ha, hb⟩ := h
          subst ha; subst hb
          exact ⟨rfl, rfl, dV, rfl, h1⟩

/-- An early return leaves both objects as they were and is not a skew violation. -/
theorem ValidateManagementEksaVersion_not_compared (e : Env) (mgmtCluster cluster : Cluster)
    (h : comparedVersions e mgmtCluster cluster = none) :
    (ValidateManagementEksaVersion e mgmtCluster cluster).mgmtCluster = mgmtCluster ∧
    (ValidateManagementEksaVersion e mgmtCluster cluster).cluster = cluster ∧
    ∀ wV mV, (ValidateManagementEksaVersion e mgmtCluster cluster).err ≠
      .fail (skewMessage e wV mV) := by
  rcases ValidateManagementEksaVersion_cases e mgmtCluster cluster with
    ⟨_, hV | hV | ⟨x, hx, hV⟩⟩ | ⟨mV, wV, hcv, _⟩
  · rw [hV]; simp
  · rw [hV]; simp
  · rw [hV]
    refine ⟨rfl, rfl, ?_⟩
    intro wV mV hne
    injection hne with hne
    exact parseClusterEksaVersion_error_ne_skew e mgmtCluster cluster x hx wV mV hne
  · rw [h] at hcv; cases hcv

/-- The comparison finds the workload ahead: the error is returned and the status set. -/
theorem ValidateManagementEksaVersion_greater (e : Env) (mgmtCluster cluster : Cluster)
    (mV wV : Version) (h : comparedVersions e mgmtCluster cluster = some (mV, wV))
    (hg : e.GreaterThan wV mV = true) :
    ValidateManagementEksaVersion e mgmtCluster cluster =
      ⟨.fail (skewMessage e wV mV), mgmtCluster,
        withSkewFailure e cluster (skewMessage e wV mV)⟩ := by
  rcases ValidateManagementEksaVersion_cases e mgmtCluster cluster with
    ⟨hn, _⟩ | ⟨a, b, hcv, ⟨_, hV⟩ | ⟨hg2, _, _⟩ | ⟨hg2, _, _⟩⟩
  · rw [h] at hn; cases hn
  · rw [h] at hcv; injection hcv with hcv; injection hcv with ha hb
    subst ha; subst hb; exact hV
  · rw [h] at hcv; injection hcv with hcv; injection hcv with ha hb
    subst ha; subst hb; rw [hg] at hg2; cases hg2
  · rw [h] at hcv; injection hcv with hcv; injection hcv with ha hb
    subst ha; subst hb; rw [hg] at hg2; cases hg2

/-- The comparison passes: the check passes, and the status is cleared exactly when it
records the version-skew reason. -/
theorem ValidateManagementEksaVersion_not_greater (e : Env) (mgmtCluster cluster : Cluster)
    (mV wV : Version) (h : comparedVersions e mgmtCluster cluster = some (mV, wV))
    (hg : e.GreaterThan wV mV = false) :
    ValidateManagementEksaVersion e mgmtCluster cluster =
      ⟨.pass, mgmtCluster,
        if cluster.Status.FailureReason = some e.EksaVersionInvalidReason then
          withFailureCleared cluster
        else cluster⟩ := by
  rcases ValidateManagementEksaVersion_cases e mgmtCluster cluster with
    ⟨hn, _⟩ | ⟨a, b, hcv, ⟨hg2, _⟩ | ⟨_, hr, hV⟩ | ⟨_, hr, hV⟩⟩
  · rw [h] at hn; cases hn
  · rw [h] at hcv; injection hcv with hcv; injection hcv with ha hb
    subst ha; subst hb; rw [hg] at hg2; cases hg2
  · rw [hV, if_pos hr]
  · rw [hV, if_neg hr]

/-- A returned skew violation comes from the comparison of the two parsed versions. -/
theorem ValidateManagementEksaVersion_skew_inv (e : Env) (mgmtCluster cluster : Cluster)
    (wV mV : Version)
    (h : (ValidateManagementEksaVersion e mgmtCluster cluster).err = .fail (skewMessage e wV mV)) :
    ∃ mV2 wV2, comparedVersions e mgmtCluster cluster = some (mV2, wV2) ∧
      e.GreaterThan wV2 mV2 = true ∧ skewMessage e wV mV = skewMessage e wV2 mV2 := by
  cases hcv : comparedVersions e mgmtCluster cluster with
  | none =>
    exact absurd h ((ValidateManagementEksaVersion_not_compared e mgmtCluster cluster hcv).2.2 wV mV)
  | some p =>
    obtain ⟨a, b⟩ := p
    cases hg : e.GreaterThan b a with
    | true =>
      rw [ValidateManagementEksaVersion_greater e mgmtCluster cluster a b hcv hg] at h
      injection h with h
      exact ⟨a, b, rfl, hg, h.symm⟩
    | false =>
      rw [ValidateManagementEksaVersion_not_greater e mgmtCluster cluster a b hcv hg] at h
      cases h

/-! ## Theorems on the management/workload check -/

/-- C1: for a workload cluster without a bundles reference, both versions set and
parsed, and a management version that is not a same-patch match of the
development-build version, `ValidateManagementEksaVersion` returns an error if and
only if the workload version is greater than the management version; the error is
the skew violation, and otherwise the check passes. -/
theorem ValidateManagementEksaVersion_error_iff_workload_greater (e : Env)
    (mgmtCluster cluster : Cluster) (m w : String) (mV wV dV : Version)
    (hB : cluster.Spec.BundlesRef = none)
    (hm : mgmtCluster.Spec.EksaVersion = some m) (hw : cluster.Spec.EksaVersion = some w)
    (hpm : e.New m = .ok mV) (hpw : e.New w = .ok wV)
    (hd : e.New e.DevBuildVersion = .ok dV) (hnd : mV.SamePatch dV = false) :
    ((ValidateManagementEksaVersion e mgmtCluster cluster).err.isError = true ↔
      e.GreaterThan wV mV = true) ∧
    (e.GreaterThan wV mV = true →
      (ValidateManagementEksaVersion e mgmtCluster cluster).err = .fail (skewMessage e wV mV)) ∧
    (e.GreaterThan wV mV = false →
      (ValidateManagementEksaVersion e mgmtCluster cluster).err = .pass) := by
  rw [ValidateManagementEksaVersion_parsed e mgmtCluster cluster m w mV wV dV hB hm hw hpm hpw hd]
  cases hg : e.GreaterThan wV mV with
  | true => simp [hnd, Result.isError]
  | false =>
    by_cases hr : cluster.Status.FailureReason = some e.EksaVersionInvalidReason
    · simp [hnd, hr, Result.isError]
    · simp [hnd, hr, Result.isError]

/-- C1, evaluated: management `v0.19.0` with workload `v0.20.0` fails, management
`v0.20.0` with workload `v0.19.0` passes. -/
theorem ValidateManagementEksaVersion_error_iff_workload_greater_witness :
    (ValidateManagementEksaVersion stdEnv
        (exampleCluster "mgmt" (some "v0.19.0") none noFailure)
        (exampleCluster "w" (some "v0.20.0") none noFailure)).err.isError = true ∧
    (ValidateManagementEksaVersion stdEnv
        (exampleCluster "mgmt" (some "v0.20.0") none noFailure)
        (exampleCluster "w" (some "v0.19.0") none noFailure)).err = .pass :=
  ⟨(ValidateManagementEksaVersion_error_iff_workload_greater stdEnv
        (exampleCluster "mgmt" (some "v0.19.0") none noFailure)
        (exampleCluster "w" (some "v0.20.0") none noFailure)
        "v0.19.0" "v0.20.0" ⟨0, 19, 0, "", ""⟩ ⟨0, 20, 0, "", ""⟩ ⟨0, 0, 0, "dev", ""⟩
        rfl rfl rfl rfl rfl rfl rfl).1.mpr (by decide),
   (ValidateManagementEksaVersion_error_iff_workload_greater stdEnv
        (exampleCluster "mgmt" (some "v0.20.0") none noFailure)
        (exampleCluster "w" (some "v0.19.0") none noFailure)
        "v0.20.0" "v0.19.0" ⟨0, 20, 0, "", ""⟩ ⟨0, 19, 0, "", ""⟩ ⟨0, 0, 0, "dev", ""⟩
        rfl rfl rfl rfl rfl rfl rfl).2.2 (by decide)⟩

/-- C2: whenever `ValidateManagementEksaVersion` returns the version-skew violation,
the workload cluster afterwards has the failure reason `EksaVersionInvalidReason`
and, as failure message, the text of the returned error, whatever the status held
before; that text is the skew message of the parsed workload and management
versions of the two clusters. -/
theorem ValidateManagementEksaVersion_skew_sets_failure_status (e : Env)
    (mgmtCluster cluster : Cluster) (wV mV : Version)
    (h : (ValidateManagementEksaVersion e mgmtCluster cluster).err =
      .fail (skewMessage e wV mV)) :
    (ValidateManagementEksaVersion e mgmtCluster cluster).cluster.Status.FailureReason =
      some e.EksaVersionInvalidReason ∧
    (ValidateManagementEksaVersion e mgmtCluster cluster).cluster.Status.FailureMessage =
      some (skewMessage e wV mV) ∧
    ∃ m w mV2 wV2, mgmtCluster.Spec.EksaVersion = some m ∧ cluster.Spec.EksaVersion = some w ∧
      e.New m = .ok mV2 ∧ e.New w = .ok wV2 ∧
      skewMessage e wV mV =
        "cannot upgrade workload cluster to " ++ e.versionString wV2 ++
          " while management cluster is an older version: " ++ e.versionString mV2 := by
  obtain ⟨mV2, wV2, hcv, hg, hmsg⟩ :=
    ValidateManagementEksaVersion_skew_inv e mgmtCluster cluster wV mV h
  obtain ⟨_, hp, _⟩ := comparedVersions_some_inv e mgmtCluster cluster mV2 wV2 hcv
  obtain ⟨m, w, hm, hw, hpm, hpw⟩ := parseClusterEksaVersion_ok_inv e mgmtCluster cluster mV2 wV2 hp
  rw [ValidateManagementEksaVersion_greater e mgmtCluster cluster mV2 wV2 hcv hg]
  refine ⟨rfl, ?_, m, w, mV2, wV2, hm, hw, hpm, hpw, ?_⟩
  · simp [withSkewFailure, hmsg]
  · rw [hmsg]; rfl

/-- C2, evaluated: management `v0.19.0`, workload `v0.20.0` holding a stale failure:
the status afterwards records the reason and the message of the returned error. -/
theorem ValidateManagementEksaVersion_skew_sets_failure_status_witness :
    (ValidateManagementEksaVersion stdEnv
        (exampleCluster "mgmt" (some "v0.19.0") none noFailure)
        (exampleCluster "w" (some "v0.20.0") none
          ⟨some "an older message", some "OtherReason"⟩)).cluster.Status.FailureReason =
      some "EksaVersionInvalid" ∧
    (ValidateManagementEksaVersion stdEnv
        (exampleCluster "mgmt" (some "v0.19.0") none noFailure)
        (exampleCluster "w" (some "v0.20.0") none
          ⟨some "an older message", some "OtherReason"⟩)).cluster.Status.FailureMessage =
      some (skewMessage stdEnv ⟨0, 20, 0, "", ""⟩ ⟨0, 19, 0, "", ""⟩) :=
  ⟨(ValidateManagementEksaVersion_skew_sets_failure_status stdEnv
        (exampleCluster "mgmt" (some "v0.19.0") none noFailure)
        (exampleCluster "w" (some "v0.20.0") none ⟨some "an older message", some "OtherReason"⟩)
        ⟨0, 20, 0, "", ""⟩ ⟨0, 19, 0, "", ""⟩ (by decide)).1,
   (ValidateManagementEksaVersion_skew_sets_failure_status stdEnv
        (exampleCluster "mgmt" (some "v0.19.0") none noFailure)
        (exampleCluster "w" (some "v0.20.0") none ⟨some "an older message", some "OtherReason"⟩)
        ⟨0, 20, 0, "", ""⟩ ⟨0, 19, 0, "", ""⟩ (by decide)).2.1⟩

/-- The development-build shortcut in every environment: when the management version
is a same-patch match of the development-build version, the call returns before
the failure status is looked at, and the workload cluster is left as it was. -/
theorem ValidateManagementEksaVersion_dev_build (e : Env) (mgmtCluster cluster : Cluster)
    (m w : String) (mV wV dV : Version)
    (hB : cluster.Spec.BundlesRef = none)
    (hm : mgmtCluster.Spec.EksaVersion = some m) (hw : cluster.Spec.EksaVersion = some w)
    (hpm : e.New m = .ok mV) (hpw : e.New w = .ok wV)
    (hd : e.New e.DevBuildVersion = .ok dV) (hsame : mV.SamePatch dV = true) :
    ValidateManagementEksaVersion e mgmtCluster cluster = ⟨.pass, mgmtCluster, cluster⟩ := by
  rw [ValidateManagementEksaVersion_parsed e mgmtCluster cluster m w mV wV dV hB hm hw hpm hpw hd]
  simp [hsame]

/-- C3, as stated, fails: the version `v0.0.0-dev` parses, and with it as the version
of both clusters (it is the development-build version of the environment) the
workload cluster keeps the stale `EksaVersionInvalid` failure. -/
theorem ValidateManagementEksaVersion_self_healing_counterexample :
    semverNew "v0.0.0-dev" = .ok ⟨0, 0, 0, "dev", ""⟩ ∧
    (ValidateManagementEksaVersion stdEnv
        (exampleCluster "mgmt" (some "v0.0.0-dev") none noFailure)
        (exampleCluster "w" (some "v0.0.0-dev") none staleFailure)).cluster.Status =
      ⟨some "stale message", some "EksaVersionInvalid"⟩ :=
  ⟨rfl, by decide⟩

/-- C3, amended: for every version `v` that parses and is not a same-patch match of the
development-build version, with a comparator under which `v` is not greater than
itself: if the workload cluster (no bundles reference) records
`EksaVersionInvalidReason` with some message, then the check with management
version = workload version = `v` passes and leaves both failure fields empty. -/
theorem ValidateManagementEksaVersion_self_healing (e : Env)
    (mgmtCluster cluster : Cluster) (v : String) (pV dV : Version) (staleMessage : String)
    (hB : cluster.Spec.BundlesRef = none)
    (hm : mgmtCluster.Spec.EksaVersion = some v) (hw : cluster.Spec.EksaVersion = some v)
    (hp : e.New v = .ok pV)
    (hd : e.New e.DevBuildVersion = .ok dV) (hnd : pV.SamePatch dV = false)
    (hirr : e.GreaterThan pV pV = false)
    (hst : cluster.Status = ⟨some staleMessage, some e.EksaVersionInvalidReason⟩) :
    (ValidateManagementEksaVersion e mgmtCluster cluster).err = .pass ∧
    (ValidateManagementEksaVersion e mgmtCluster cluster).cluster.Status.FailureReason = none ∧
    (ValidateManagementEksaVersion e mgmtCluster cluster).cluster.Status.FailureMessage = none := by
  rw [ValidateManagementEksaVersion_parsed e mgmtCluster cluster v v pV pV dV hB hm hw hp hp hd]
  simp [hnd, hirr, hst]

/-- C3, amended, evaluated: both clusters at `v0.20.0`, the workload holding the stale
failure. -/
theorem ValidateManagementEksaVersion_self_healing_witness :
    (ValidateManagementEksaVersion stdEnv
        (exampleCluster "mgmt" (some "v0.20.0") none noFailure)
        (exampleCluster "w" (some "v0.20.0") none staleFailure)).err = .pass ∧
    (ValidateManagementEksaVersion stdEnv
        (exampleCluster "mgmt" (some "v0.20.0") none noFailure)
        (exampleCluster "w" (some "v0.20.0") none staleFailure)).cluster.Status.FailureReason
      = none ∧
    (ValidateManagementEksaVersion stdEnv
        (exampleCluster "mgmt" (some "v0.20.0") none noFailure)
        (exampleCluster "w" (some "v0.20.0") none staleFailure)).cluster.Status.FailureMessage
      = none :=
  ValidateManagementEksaVersion_self_healing stdEnv
    (exampleCluster "mgmt" (some "v0.20.0") none noFailure)
    (exampleCluster "w" (some "v0.20.0") none staleFailure)
    "v0.20.0" ⟨0, 20, 0, "", ""⟩ ⟨0, 0, 0, "dev", ""⟩ "stale message"
    rfl rfl rfl rfl rfl rfl (by decide) rfl

/-- C4: `ValidateManagementEksaVersion` never modifies the management cluster, nor the
name or the spec of the workload cluster.  It sets the failure status when it
returns the skew violation, it clears it when the comparison passes and the stored
reason is `EksaVersionInvalidReason`, and in every other case the failure status
is left as it was: in particular on a pass with another or no stored reason, with
a bundles reference, with both versions missing, on an error of
`parseClusterEksaVersion`, and on the development-build shortcut. -/
theorem ValidateManagementEksaVersion_failure_status_frame (e : Env)
    (mgmtCluster cluster : Cluster) :
    (ValidateManagementEksaVersion e mgmtCluster cluster).mgmtCluster = mgmtCluster ∧
    (ValidateManagementEksaVersion e mgmtCluster cluster).cluster.Name = cluster.Name ∧
    (ValidateManagementEksaVersion e mgmtCluster cluster).cluster.Spec = cluster.Spec ∧
    (∀ wV mV,
      (ValidateManagementEksaVersion e mgmtCluster cluster).err = .fail (skewMessage e wV mV) →
      (ValidateManagementEksaVersion e mgmtCluster cluster).cluster.Status =
        ⟨some (skewMessage e wV mV), some e.EksaVersionInvalidReason⟩) ∧
    (∀ mV wV, comparedVersions e mgmtCluster cluster = some (mV, wV) →
      e.GreaterThan wV mV = false →
      cluster.Status.FailureReason = some e.EksaVersionInvalidReason →
      (ValidateManagementEksaVersion e mgmtCluster cluster).err = .pass ∧
      (ValidateManagementEksaVersion e mgmtCluster cluster).cluster.Status = ⟨none, none⟩) ∧
    ((¬ ∃ wV mV,
        (ValidateManagementEksaVersion e mgmtCluster cluster).err = .fail (skewMessage e wV mV)) →
      (¬ ∃ mV wV, comparedVersions e mgmtCluster cluster = some (mV, wV) ∧
        e.GreaterThan wV mV = false ∧
        cluster.Status.FailureReason = some e.EksaVersionInvalidReason) →
      (ValidateManagementEksaVersion e mgmtCluster cluster).cluster.Status = cluster.Status) ∧
    ((ValidateManagementEksaVersion e mgmtCluster cluster).err = .pass →
      cluster.Status.FailureReason ≠ some e.EksaVersionInvalidReason →
      (ValidateManagementEksaVersion e mgmtCluster cluster).cluster.Status = cluster.Status) ∧
    (cluster.Spec.BundlesRef ≠ none →
      (ValidateManagementEksaVersion e mgmtCluster cluster).cluster.Status = cluster.Status) ∧
    (cluster.Spec.EksaVersion = none → mgmtCluster.Spec.EksaVersion = none →
      (ValidateManagementEksaVersion e mgmtCluster cluster).cluster.Status = cluster.Status) ∧
    (∀ x, parseClusterEksaVersion e mgmtCluster cluster = .error x →
      (ValidateManagementEksaVersion e mgmtCluster cluster).cluster.Status = cluster.Status) ∧
    (∀ mV wV dV, parseClusterEksaVersion e mgmtCluster cluster = .ok (mV, wV) →
      e.New e.DevBuildVersion = .ok dV → mV.SamePatch dV = true →
      (ValidateManagementEksaVersion e mgmtCluster cluster).cluster.Status = cluster.Status) := by
  cases hcv : comparedVersions e mgmtCluster cluster with
  | none =>
    obtain ⟨h1, h2, h3⟩ := ValidateManagementEksaVersion_not_compared e mgmtCluster cluster hcv
    refine ⟨h1, by rw [h2], by rw [h2], ?_, ?_, ?_, ?_, ?_, ?_, ?_, ?_⟩
    · intro wV mV h; exact absurd h (h3 wV mV)
    · intro mV wV h; cases h
    · intro _ _; rw [h2]
    · intro _ _; rw [h2]
    · intro _; rw [h2]
    · intro _ _; rw [h2]
    · intro _ _; rw [h2]
    · intro _ _ _ _ _ _; rw [h2]
  | some p =>
    obtain ⟨a, b⟩ := p
    obtain ⟨hc, hp, dV, hd, hsame⟩ := comparedVersions_some_inv e mgmtCluster cluster a b hcv
    cases hg : e.GreaterThan b a with
    | true =>
      have hV := ValidateManagementEksaVersion_greater e mgmtCluster cluster a b hcv hg
      rw [hV]
      refine ⟨rfl, rfl, rfl, ?_, ?_, ?_, ?_, ?_, ?_, ?_, ?_⟩
      · intro wV mV h
        injection h with h
        simp [withSkewFailure, h]
      · intro mV wV h hg2 _
        injection h with h; injection h with ha hb
        subst ha; subst hb; rw [hg] at hg2; cases hg2
      · intro hne _
        exact absurd ⟨b, a, rfl⟩ hne
      · intro h; cases h
      · intro hB
        rw [clustersHaveEksaVersion_bundlesRef mgmtCluster cluster hB] at hc; cases hc
      · intro h1 h2
        simp [clustersHaveEksaVersion, h1, h2] at hc
      · intro x hx; rw [hp] at hx; cases hx
      · intro mV wV dV2 hp2 hd2 hs2
        rw [hp] at hp2; injection hp2 with hp2; injection hp2 with ha hb
        subst ha; rw [hd] at hd2; injection hd2 with hd2; subst hd2
        rw [hsame] at hs2; cases hs2
    | false =>
      have hV := ValidateManagementEksaVersion_not_greater e mgmtCluster cluster a b hcv hg
      rw [hV]
      by_cases hr : cluster.Status.FailureReason = some e.EksaVersionInvalidReason
      · rw [if_pos hr]
        refine ⟨rfl, rfl, rfl, ?_, ?_, ?_, ?_, ?_, ?_, ?_, ?_⟩
        · intro wV mV h; cases h
        · intro _ _ _ _ _; exact ⟨rfl, rfl⟩
        · intro _ hne
          exact absurd ⟨a, b, rfl, hg, hr⟩ hne
        · intro _ hne; exact absurd hr hne
        · intro hB
          rw [clustersHaveEksaVersion_bundlesRef mgmtCluster cluster hB] at hc; cases hc
        · intro h1 h2
          simp [clustersHaveEksaVersion, h1, h2] at hc
        · intro x hx; rw [hp] at hx; cases hx
        · intro mV wV dV2 hp2 hd2 hs2
          rw [hp] at hp2; injection hp2 with hp2; injection hp2 with ha hb
          subst ha; rw [hd] at hd2; injection hd2 with hd2; subst hd2
          rw [hsame] at hs2; cases hs2
      · rw [if_neg hr]
        refine ⟨rfl, rfl, rfl, ?_, ?_, ?_, ?_, ?_, ?_, ?_, ?_⟩
        · intro wV mV h; cases h
        · intro _ _ _ _ h; exact absurd h hr
        · intro _ _; rfl
        · intro _ _; rfl
        · intro _; rfl
        · intro _ _; rfl
        · intro _ _; rfl
        · intro _ _ _ _ _ _; rfl

/-- C4, evaluated: with both clusters at `v0.20.0` the stale failure of the workload is
cleared and the management cluster is as before; with a bundles reference on the
workload the stale failure stays. -/
theorem ValidateManagementEksaVersion_failure_status_frame_witness :
    ((ValidateManagementEksaVersion stdEnv
        (exampleCluster "mgmt" (some "v0.20.0") none noFailure)
        (exampleCluster "w" (some "v0.20.0") none staleFailure)).err = .pass ∧
      (ValidateManagementEksaVersion stdEnv
        (exampleCluster "mgmt" (some "v0.20.0") none noFailure)
        (exampleCluster "w" (some "v0.20.0") none staleFailure)).cluster.Status = ⟨none, none⟩) ∧
    (ValidateManagementEksaVersion stdEnv
        (exampleCluster "mgmt" (some "v0.20.0") none noFailure)
        (exampleCluster "w" (some "v0.20.0") none staleFailure)).mgmtCluster =
      exampleCluster "mgmt" (some "v0.20.0") none noFailure ∧
    (ValidateManagementEksaVersion stdEnv
        (exampleCluster "mgmt" (some "v0.19.0") none noFailure)
        (exampleCluster "w" (some "v0.20.0") (some ⟨"v1", "bundles-1", "eksa-system"⟩)
          staleFailure)).cluster.Status = staleFailure :=
  ⟨(ValidateManagementEksaVersion_failure_status_frame stdEnv
      (exampleCluster "mgmt" (some "v0.20.0") none noFailure)
      (exampleCluster "w" (some "v0.20.0") none staleFailure)).2.2.2.2.1
      ⟨0, 20, 0, "", ""⟩ ⟨0, 20, 0, "", ""⟩ (by decide) (by decide) rfl,
   (ValidateManagementEksaVersion_failure_status_frame stdEnv
      (exampleCluster "mgmt" (some "v0.20.0") none noFailure)
      (exampleCluster "w" (some "v0.20.0") none staleFailure)).1,
   (ValidateManagementEksaVersion_failure_status_frame stdEnv
      (exampleCluster "mgmt" (some "v0.19.0") none noFailure)
      (exampleCluster "w" (some "v0.20.0") (some ⟨"v1", "bundles-1", "eksa-system"⟩)
        staleFailure)).2.2.2.2.2.2.2.1 (by decide)⟩

/-- C5: with a bundles reference on the workload cluster `ValidateManagementEksaVersion`
returns no error, whatever the two versions are, and leaves both objects as they
were. -/
theorem ValidateManagementEksaVersion_bundlesRef_passes (e : Env)
    (mgmtCluster cluster : Cluster) (hB : cluster.Spec.BundlesRef ≠ none) :
    ValidateManagementEksaVersion e mgmtCluster cluster = ⟨.pass, mgmtCluster, cluster⟩ := by
  simp [ValidateManagementEksaVersion, clustersHaveEksaVersion_bundlesRef mgmtCluster cluster hB]

/-- C5, evaluated: a bundles reference on the workload, with a workload version ahead of
the management version, with a missing version, and with versions that do not
parse. -/
theorem ValidateManagementEksaVersion_bundlesRef_passes_witness :
    (ValidateManagementEksaVersion stdEnv
        (exampleCluster "mgmt" (some "v0.19.0") none noFailure)
        (exampleCluster "w" (some "v0.20.0") (some ⟨"v1", "bundles-1", "eksa-system"⟩)
          noFailure)).err = .pass ∧
    (ValidateManagementEksaVersion stdEnv
        (exampleCluster "mgmt" none none noFailure)
        (exampleCluster "w" (some "v0.20.0") (some ⟨"v1", "bundles-1", "eksa-system"⟩)
          noFailure)).err = .pass ∧
    (ValidateManagementEksaVersion stdEnv
        (exampleCluster "mgmt" (some "not a version") none noFailure)
        (exampleCluster "w" (some "1.2") (some ⟨"v1", "bundles-1", "eksa-system"⟩)
          noFailure)).err = .pass :=
  ⟨congrArg Run.err (ValidateManagementEksaVersion_bundlesRef_passes stdEnv
      (exampleCluster "mgmt" (some "v0.19.0") none noFailure)
      (exampleCluster "w" (some "v0.20.0") (some ⟨"v1", "bundles-1", "eksa-system"⟩) noFailure)
      (by decide)),
   congrArg Run.err (ValidateManagementEksaVersion_bundlesRef_passes stdEnv
      (exampleCluster "mgmt" none none noFailure)
      (exampleCluster "w" (some "v0.20.0") (some ⟨"v1", "bundles-1", "eksa-system"⟩) noFailure)
      (by decide)),
   congrArg Run.err (ValidateManagementEksaVersion_bundlesRef_passes stdEnv
      (exampleCluster "mgmt" (some "not a version") none noFailure)
      (exampleCluster "w" (some "1.2") (some ⟨"v1", "bundles-1", "eksa-system"⟩) noFailure)
      (by decide))⟩

/-- C6, as stated, fails: with exactly one of the two versions missing (and no bundles
reference) the check is not skipped but returns an error. -/
theorem ValidateManagementEksaVersion_missing_version_counterexample :
    (ValidateManagementEksaVersion stdEnv
        (exampleCluster "mgmt" (some "v0.20.0") none noFailure)
        (exampleCluster "w" none none noFailure)).err = .fail "cluster has nil EksaVersion" ∧
    (ValidateManagementEksaVersion stdEnv
        (exampleCluster "mgmt" none none noFailure)
        (exampleCluster "w" (some "v0.20.0") none noFailure)).err =
      .fail "management cluster has nil EksaVersion" := by
  decide

/-- C6, amended: when both clusters have no version the check is skipped and no error
is returned; when exactly one of them has no version and the workload has no
bundles reference, the error naming the missing version is returned. -/
theorem ValidateManagementEksaVersion_missing_version (e : Env)
    (mgmtCluster cluster : Cluster) :
    (cluster.Spec.EksaVersion = none → mgmtCluster.Spec.EksaVersion = none →
      (ValidateManagementEksaVersion e mgmtCluster cluster).err = .pass) ∧
    (cluster.Spec.BundlesRef = none → cluster.Spec.EksaVersion = none →
      mgmtCluster.Spec.EksaVersion ≠ none →
      (ValidateManagementEksaVersion e mgmtCluster cluster).err =
        .fail "cluster has nil EksaVersion") ∧
    (cluster.Spec.BundlesRef = none → cluster.Spec.EksaVersion ≠ none →
      mgmtCluster.Spec.EksaVersion = none →
      (ValidateManagementEksaVersion e mgmtCluster cluster).err =
        .fail "management cluster has nil EksaVersion") := by
  refine ⟨?_, ?_, ?_⟩
  · intro hw hm
    simp [ValidateManagementEksaVersion, clustersHaveEksaVersion, hw, hm]
  · intro hB hw hm
    have hc : clustersHaveEksaVersion mgmtCluster cluster = true := by
      rw [clustersHaveEksaVersion_eq _ _ hB]; simp [hm]
    simp [ValidateManagementEksaVersion, hc, parseClusterEksaVersion, hw]
  · intro hB hw hm
    have hc : clustersHaveEksaVersion mgmtCluster cluster = true := by
      rw [clustersHaveEksaVersion_eq _ _ hB]; simp [hw]
    obtain ⟨w, hw2⟩ := Option.ne_none_iff_exists'.mp hw
    simp [ValidateManagementEksaVersion, hc, parseClusterEksaVersion, hw2, hm]

/-- C6, amended, evaluated: both versions missing; only the workload version missing;
only the management version missing. -/
theorem ValidateManagementEksaVersion_missing_version_witness :
    (ValidateManagementEksaVersion stdEnv
        (exampleCluster "mgmt" none none noFailure)
        (exampleCluster "w" none none noFailure)).err = .pass ∧
    (ValidateManagementEksaVersion stdEnv
        (exampleCluster "mgmt" (some "v0.20.0") none noFailure)
        (exampleCluster "w" none none noFailure)).err = .fail "cluster has nil EksaVersion" ∧
    (ValidateManagementEksaVersion stdEnv
        (exampleCluster "mgmt" none none noFailure)
        (exampleCluster "w" (some "v0.20.0") none noFailure)).err =
      .fail "management cluster has nil EksaVersion" :=
  ⟨(ValidateManagementEksaVersion_missing_version stdEnv
      (exampleCluster "mgmt" none none noFailure)
      (exampleCluster "w" none none noFailure)).1 rfl rfl,
   (ValidateManagementEksaVersion_missing_version stdEnv
      (exampleCluster "mgmt" (some "v0.20.0") none noFailure)
      (exampleCluster "w" none none noFailure)).2.1 rfl rfl (by decide),
   (ValidateManagementEksaVersion_missing_version stdEnv
      (exampleCluster "mgmt" none none noFailure)
      (exampleCluster "w" (some "v0.20.0") none noFailure)).2.2 rfl (by decide) rfl⟩

/-- C7: for a workload cluster without a bundles reference whose version parses, if the
version of the management cluster is a same-patch match of the development-build
version, `ValidateManagementEksaVersion` returns no error. -/
theorem ValidateManagementEksaVersion_dev_build_passes (e : Env)
    (mgmtCluster cluster : Cluster) (m w : String) (mV wV dV : Version)
    (hB : cluster.Spec.BundlesRef = none)
    (hm : mgmtCluster.Spec.EksaVersion = some m) (hw : cluster.Spec.EksaVersion = some w)
    (hpm : e.New m = .ok mV) (hpw : e.New w = .ok wV)
    (hd : e.New e.DevBuildVersion = .ok dV) (hsame : mV.SamePatch dV = true) :
    (ValidateManagementEksaVersion e mgmtCluster cluster).err = .pass := by
  rw [ValidateManagementEksaVersion_dev_build e mgmtCluster cluster m w mV wV dV
    hB hm hw hpm hpw hd hsame]

/-- C7, evaluated: the management cluster at the development-build version, the workload
at `v99.0.0`. -/
theorem ValidateManagementEksaVersion_dev_build_passes_witness :
    (ValidateManagementEksaVersion stdEnv
        (exampleCluster "mgmt" (some "v0.0.0-dev") none noFailure)
        (exampleCluster "w" (some "v99.0.0") none noFailure)).err = .pass :=
  ValidateManagementEksaVersion_dev_build_passes stdEnv
    (exampleCluster "mgmt" (some "v0.0.0-dev") none noFailure)
    (exampleCluster "w" (some "v99.0.0") none noFailure)
    "v0.0.0-dev" "v99.0.0" ⟨0, 0, 0, "dev", ""⟩ ⟨99, 0, 0, "", ""⟩ ⟨0, 0, 0, "dev", ""⟩
    rfl rfl rfl rfl rfl rfl rfl

/-! ## Theorems on the CLI exact-match check -/

/-- Same-patch spelled out: the three numeric components agree. -/
theorem Version.SamePatch_iff (v v2 : Version) :
    v.SamePatch v2 = true ↔ v.Major = v2.Major ∧ v.Minor = v2.Minor ∧ v.Patch = v2.Patch := by
  simp [Version.SamePatch, and_assoc]

/-- C8: `ValidateEksaVersion` returns no error for every CLI version when the cluster
has no version; when the cluster has a version and both it and the CLI version
parse, it returns an error if and only if the two differ in major, minor or patch
(the tags play no part), and passes otherwise. -/
theorem ValidateEksaVersion_error_iff_not_samePatch (e : Env) (cliVersion : String)
    (workload : Spec) :
    (workload.Cluster.Spec.EksaVersion = none →
      ValidateEksaVersion e cliVersion workload = .pass) ∧
    (∀ v pV pCLI, workload.Cluster.Spec.EksaVersion = some v →
      e.New v = .ok pV → e.New cliVersion = .ok pCLI →
      ((ValidateEksaVersion e cliVersion workload).isError = true ↔
        ¬ (pV.Major = pCLI.Major ∧ pV.Minor = pCLI.Minor ∧ pV.Patch = pCLI.Patch)) ∧
      ((pV.Major = pCLI.Major ∧ pV.Minor = pCLI.Minor ∧ pV.Patch = pCLI.Patch) →
        ValidateEksaVersion e cliVersion workload = .pass)) := by
  refine ⟨?_, ?_⟩
  · intro h
    simp [ValidateEksaVersion, h]
  · intro v pV pCLI hv hp hc
    rw [← Version.SamePatch_iff]
    cases hs : pV.SamePatch pCLI with
    | true => simp [ValidateEksaVersion, hv, hp, hc, hs, Result.isError]
    | false => simp [ValidateEksaVersion, hv, hp, hc, hs, Result.isError]

/-- C8, evaluated: no cluster version passes against a CLI version that does not even
parse; `v0.20.1-rc.1` against CLI `v0.20.1+build.7` passes; `v0.20.1` against CLI
`v0.20.2` is an error. -/
theorem ValidateEksaVersion_error_iff_not_samePatch_witness :
    ValidateEksaVersion stdEnv "not a version" ⟨exampleCluster "w" none none noFailure⟩ = .pass ∧
    ValidateEksaVersion stdEnv "v0.20.1+build.7"
      ⟨exampleCluster "w" (some "v0.20.1-rc.1") none noFailure⟩ = .pass ∧
    (ValidateEksaVersion stdEnv "v0.20.2"
      ⟨exampleCluster "w" (some "v0.20.1") none noFailure⟩).isError = true :=
  ⟨(ValidateEksaVersion_error_iff_not_samePatch stdEnv "not a version"
      ⟨exampleCluster "w" none none noFailure⟩).1 rfl,
   ((ValidateEksaVersion_error_iff_not_samePatch stdEnv "v0.20.1+build.7"
      ⟨exampleCluster "w" (some "v0.20.1-rc.1") none noFailure⟩).2
      "v0.20.1-rc.1" ⟨0, 20, 1, "rc.1", ""⟩ ⟨0, 20, 1, "", "build.7"⟩ rfl rfl rfl).2
      (by decide),
   ((ValidateEksaVersion_error_iff_not_samePatch stdEnv "v0.20.2"
      ⟨exampleCluster "w" (some "v0.20.1") none noFailure⟩).2
      "v0.20.1" ⟨0, 20, 1, "", ""⟩ ⟨0, 20, 2, "", ""⟩ rfl rfl rfl).1.mpr (by decide)⟩

/-! ## Theorems on the management-components check -/

/-- The conversion to `int64` keeps a component below `2^63`. -/
theorem int64_of_lt (x : Nat) (h : x < 2 ^ 63) : int64 x = (x : Int) := by
  unfold int64 wrapInt64
  have h1 : x % 2 ^ 64 = x := Nat.mod_eq_of_lt (by omega)
  rw [h1]
  omega

/-- The difference of two components below `2^63` does not wrap. -/
theorem subInt64_of_lt (a b : Nat) (ha : a < 2 ^ 63) (hb : b < 2 ^ 63) :
    subInt64 (int64 a) (int64 b) = (a : Int) - (b : Int) := by
  rw [int64_of_lt a ha, int64_of_lt b hb]
  unfold subInt64 wrapInt64
  omega

/-- The body of `ValidateManagementComponentsVersionSkew` once the cluster is found and
both versions are parsed. -/
theorem ValidateManagementComponentsVersionSkew_parsed (e : Env) (k : KubectlClient)
    (mgmtCluster : TypesCluster) (eksaRelease : EKSARelease) (mgmt : Cluster) (v : String)
    (cur new : Version)
    (hk : k.GetEksaCluster mgmtCluster mgmtCluster.Name = .ok mgmt)
    (hv : mgmt.Spec.EksaVersion = some v)
    (hcur : e.New v = .ok cur) (hnew : e.New eksaRelease.Version = .ok new) :
    ValidateManagementComponentsVersionSkew e k mgmtCluster eksaRelease =
      if subInt64 (int64 new.Major) (int64 cur.Major) ≠ 0 ∨
          subInt64 (int64 new.Minor) (int64 cur.Minor) >
            supportedManagementComponentsMinorVersionIncrement then
        .fail (componentsSkewMessage e new cur)
      else .pass := by
  simp only [ValidateManagementComponentsVersionSkew, hk, hnew, hv, hcur]

/-- C9: when the lookup succeeds and both the current management version and the
proposed management-components version parse, with major and minor components
below `2^63`, `ValidateManagementComponentsVersionSkew` returns no error if and
only if the major difference is zero and the minor difference is at most one,
the differences being new minus current; otherwise it returns the skew error.
Patch and tags do not occur in the condition. -/
theorem ValidateManagementComponentsVersionSkew_pass_iff (e : Env) (k : KubectlClient)
    (mgmtCluster : TypesCluster) (eksaRelease : EKSARelease) (mgmt : Cluster) (v : String)
    (cur new : Version)
    (hk : k.GetEksaCluster mgmtCluster mgmtCluster.Name = .ok mgmt)
    (hv : mgmt.Spec.EksaVersion = some v)
    (hcur : e.New v = .ok cur) (hnew : e.New eksaRelease.Version = .ok new)
    (hcM : cur.Major < 2 ^ 63) (hcm : cur.Minor < 2 ^ 63)
    (hnM : new.Major < 2 ^ 63) (hnm : new.Minor < 2 ^ 63) :
    (ValidateManagementComponentsVersionSkew e k mgmtCluster eksaRelease = .pass ↔
      (new.Major : Int) - (cur.Major : Int) = 0 ∧ (new.Minor : Int) - (cur.Minor : Int) ≤ 1) ∧
    (¬ ((new.Major : Int) - (cur.Major : Int) = 0 ∧ (new.Minor : Int) - (cur.Minor : Int) ≤ 1) →
      ValidateManagementComponentsVersionSkew e k mgmtCluster eksaRelease =
        .fail (componentsSkewMessage e new cur)) := by
  rw [ValidateManagementComponentsVersionSkew_parsed e k mgmtCluster eksaRelease mgmt v cur new
    hk hv hcur hnew, subInt64_of_lt _ _ hnM hcM, subInt64_of_lt _ _ hnm hcm]
  unfold supportedManagementComponentsMinorVersionIncrement
  by_cases h : (new.Major : Int) - (cur.Major : Int) = 0 ∧ (new.Minor : Int) - (cur.Minor : Int) ≤ 1
  · have h2 : ¬ ((new.Major : Int) - (cur.Major : Int) ≠ 0 ∨
        (new.Minor : Int) - (cur.Minor : Int) > 1) := by omega
    rw [if_neg h2]
    exact ⟨⟨fun _ => h, fun _ => rfl⟩, fun hn => absurd h hn⟩
  · have h2 : (new.Major : Int) - (cur.Major : Int) ≠ 0 ∨
        (new.Minor : Int) - (cur.Minor : Int) > 1 := by omega
    rw [if_pos h2]
    refine ⟨⟨fun hp => ?_, fun hh => absurd hh h⟩, fun _ => rfl⟩
    cases hp

/-- C9, evaluated: with the management cluster at `v0.20.0`, the proposed `v0.21.0`
passes, `v0.22.0` and `v1.20.0` are rejected. -/
theorem ValidateManagementComponentsVersionSkew_pass_iff_witness :
    ValidateManagementComponentsVersionSkew stdEnv (exampleClient (some "v0.20.0"))
      ⟨"mgmt", "mgmt.kubeconfig"⟩ ⟨"v0.21.0"⟩ = .pass ∧
    ValidateManagementComponentsVersionSkew stdEnv (exampleClient (some "v0.20.0"))
      ⟨"mgmt", "mgmt.kubeconfig"⟩ ⟨"v0.22.0"⟩ =
        .fail (componentsSkewMessage stdEnv ⟨0, 22, 0, "", ""⟩ ⟨0, 20, 0, "", ""⟩) ∧
    ValidateManagementComponentsVersionSkew stdEnv (exampleClient (some "v0.20.0"))
      ⟨"mgmt", "mgmt.kubeconfig"⟩ ⟨"v1.20.0"⟩ =
        .fail (componentsSkewMessage stdEnv ⟨1, 20, 0, "", ""⟩ ⟨0, 20, 0, "", ""⟩) :=
  ⟨(ValidateManagementComponentsVersionSkew_pass_iff stdEnv (exampleClient (some "v0.20.0"))
      ⟨"mgmt", "mgmt.kubeconfig"⟩ ⟨"v0.21.0"⟩ (exampleCluster "mgmt" (some "v0.20.0") none noFailure)
      "v0.20.0" ⟨0, 20, 0, "", ""⟩ ⟨0, 21, 0, "", ""⟩ rfl rfl rfl rfl
      (by decide) (by decide) (by decide) (by decide)).1.mpr (by decide),
   (ValidateManagementComponentsVersionSkew_pass_iff stdEnv (exampleClient (some "v0.20.0"))
      ⟨"mgmt", "mgmt.kubeconfig"⟩ ⟨"v0.22.0"⟩ (exampleCluster "mgmt" (some "v0.20.0") none noFailure)
      "v0.20.0" ⟨0, 20, 0, "", ""⟩ ⟨0, 22, 0, "", ""⟩ rfl rfl rfl rfl
      (by decide) (by decide) (by decide) (by decide)).2 (by decide),
   (ValidateManagementComponentsVersionSkew_pass_iff stdEnv (exampleClient (some "v0.20.0"))
      ⟨"mgmt", "mgmt.kubeconfig"⟩ ⟨"v1.20.0"⟩ (exampleCluster "mgmt" (some "v0.20.0") none noFailure)
      "v0.20.0" ⟨0, 20, 0, "", ""⟩ ⟨1, 20, 0, "", ""⟩ rfl rfl rfl rfl
      (by decide) (by decide) (by decide) (by decide)).2 (by decide)⟩

/-- C10, as stated, fails: with the management cluster at `v0.20.0`, the proposed
`v0.18.0` (same major, two minor versions below) is accepted. -/
theorem ValidateManagementComponentsVersionSkew_regression_counterexample :
    semverNew "v0.20.0" = .ok ⟨0, 20, 0, "", ""⟩ ∧
    semverNew "v0.18.0" = .ok ⟨0, 18, 0, "", ""⟩ ∧
    ValidateManagementComponentsVersionSkew stdEnv (exampleClient (some "v0.20.0"))
      ⟨"mgmt", "mgmt.kubeconfig"⟩ ⟨"v0.18.0"⟩ = .pass :=
  ⟨rfl, rfl, by decide⟩

/-- C10, amended: a minor regression is not rejected.  When the lookup succeeds and both
versions parse with major and minor components below `2^63` and the same major,
if the proposed minor is more than one below the current minor, the check
returns no error. -/
theorem ValidateManagementComponentsVersionSkew_regression_passes (e : Env)
    (k : KubectlClient) (mgmtCluster : TypesCluster) (eksaRelease : EKSARelease)
    (mgmt : Cluster) (v : String) (cur new : Version)
    (hk : k.GetEksaCluster mgmtCluster mgmtCluster.Name = .ok mgmt)
    (hv : mgmt.Spec.EksaVersion = some v)
    (hcur : e.New v = .ok cur) (hnew : e.New eksaRelease.Version = .ok new)
    (hcM : cur.Major < 2 ^ 63) (hcm : cur.Minor < 2 ^ 63)
    (hnM : new.Major < 2 ^ 63) (hnm : new.Minor < 2 ^ 63)
    (hmajor : new.Major = cur.Major)
    (hminor : (new.Minor : Int) - (cur.Minor : Int) < -1) :
    ValidateManagementComponentsVersionSkew e k mgmtCluster eksaRelease = .pass := by
  rw [ValidateManagementComponentsVersionSkew_parsed e k mgmtCluster eksaRelease mgmt v cur new
    hk hv hcur hnew, subInt64_of_lt _ _ hnM hcM, subInt64_of_lt _ _ hnm hcm]
  unfold supportedManagementComponentsMinorVersionIncrement
  have h2 : ¬ ((new.Major : Int) - (cur.Major : Int) ≠ 0 ∨
      (new.Minor : Int) - (cur.Minor : Int) > 1) := by omega
  rw [if_neg h2]

/-- C10, amended, evaluated: the management cluster at `v0.20.0`, the proposed version
`v0.17.3`. -/
theorem ValidateManagementComponentsVersionSkew_regression_passes_witness :
    ValidateManagementComponentsVersionSkew stdEnv (exampleClient (some "v0.20.0"))
      ⟨"mgmt", "mgmt.kubeconfig"⟩ ⟨"v0.17.3"⟩ = .pass :=
  ValidateManagementComponentsVersionSkew_regression_passes stdEnv
    (exampleClient (some "v0.20.0")) ⟨"mgmt", "mgmt.kubeconfig"⟩ ⟨"v0.17.3"⟩
    (exampleCluster "mgmt" (some "v0.20.0") none noFailure)
    "v0.20.0" ⟨0, 20, 0, "", ""⟩ ⟨0, 17, 3, "", ""⟩ rfl rfl rfl rfl
    (by decide) (by decide) (by decide) (by decide) rfl (by decide)

/-- C11: when the cluster lookup succeeds, `ValidateManagementComponentsVersionSkew`
returns an error whenever the management cluster has no version (the
missing-version error when the proposed version parses), the parse error of the
proposed version when that does not parse, and the parse error of the management
version when it is present and does not parse. -/
theorem ValidateManagementComponentsVersionSkew_missing_or_unparsed (e : Env)
    (k : KubectlClient) (mgmtCluster : TypesCluster) (eksaRelease : EKSARelease)
    (mgmt : Cluster)
    (hk : k.GetEksaCluster mgmtCluster mgmtCluster.Name = .ok mgmt) :
    (mgmt.Spec.EksaVersion = none →
      (ValidateManagementComponentsVersionSkew e k mgmtCluster eksaRelease).isError = true ∧
      ∀ new, e.New eksaRelease.Version = .ok new →
        ValidateManagementComponentsVersionSkew e k mgmtCluster eksaRelease =
          .fail "management cluster EksaVersion not specified") ∧
    (∀ err, e.New eksaRelease.Version = .error err →
      ValidateManagementComponentsVersionSkew e k mgmtCluster eksaRelease =
        .fail ("parsing management components version: " ++ err)) ∧
    (∀ v new err, mgmt.Spec.EksaVersion = some v → e.New eksaRelease.Version = .ok new →
      e.New v = .error err →
      ValidateManagementComponentsVersionSkew e k mgmtCluster eksaRelease =
        .fail ("parsing management components version: " ++ err)) := by
  refine ⟨?_, ?_, ?_⟩
  · intro hv
    cases hnew : e.New eksaRelease.Version with
    | error err =>
      simp [ValidateManagementComponentsVersionSkew, hk, hnew, Result.isError]
    | ok new =>
      simp [ValidateManagementComponentsVersionSkew, hk, hnew, hv, Result.isError]
  · intro err hnew
    simp [ValidateManagementComponentsVersionSkew, hk, hnew]
  · intro v new err hv hnew hcur
    simp [ValidateManagementComponentsVersionSkew, hk, hnew, hv, hcur]

/-- C11, evaluated: a management cluster without version against `v0.21.0`; a proposed
version that does not parse; a management version that does not parse. -/
theorem ValidateManagementComponentsVersionSkew_missing_or_unparsed_witness :
    ValidateManagementComponentsVersionSkew stdEnv (exampleClient none)
      ⟨"mgmt", "mgmt.kubeconfig"⟩ ⟨"v0.21.0"⟩ =
        .fail "management cluster EksaVersion not specified" ∧
    ValidateManagementComponentsVersionSkew stdEnv (exampleClient (some "v0.20.0"))
      ⟨"mgmt", "mgmt.kubeconfig"⟩ ⟨"0.21"⟩ =
        .fail ("parsing management components version: " ++ "invalid semantic version 0.21") ∧
    ValidateManagementComponentsVersionSkew stdEnv (exampleClient (some "latest"))
      ⟨"mgmt", "mgmt.kubeconfig"⟩ ⟨"v0.21.0"⟩ =
        .fail ("parsing management components version: " ++ "invalid semantic version latest") :=
  ⟨((ValidateManagementComponentsVersionSkew_missing_or_unparsed stdEnv (exampleClient none)
      ⟨"mgmt", "mgmt.kubeconfig"⟩ ⟨"v0.21.0"⟩ (exampleCluster "mgmt" none none noFailure)
      rfl).1 rfl).2 ⟨0, 21, 0, "", ""⟩ rfl,
   (ValidateManagementComponentsVersionSkew_missing_or_unparsed stdEnv
      (exampleClient (some "v0.20.0")) ⟨"mgmt", "mgmt.kubeconfig"⟩ ⟨"0.21"⟩
      (exampleCluster "mgmt" (some "v0.20.0") none noFailure) rfl).2.1
      "invalid semantic version 0.21" rfl,
   (ValidateManagementComponentsVersionSkew_missing_or_unparsed stdEnv
      (exampleClient (some "latest")) ⟨"mgmt", "mgmt.kubeconfig"⟩ ⟨"v0.21.0"⟩
      (exampleCluster "mgmt" (some "latest") none noFailure) rfl).2.2
      "latest" ⟨0, 21, 0, "", ""⟩ "invalid semantic version latest" rfl rfl rfl⟩

/-! ## Theorems on the extended Kubernetes version support -/

/-- C12, as stated, fails: for a cluster at `v0.21.0`, which is below the cutoff, a
bundles override that cannot be read makes the check return an error. -/
theorem ValidateExtendedKubernetesVersionSupport_below_cutoff_counterexample :
    shouldSkipBundleSignatureValidation stdEnv (some "v0.21.0") = .ok true ∧
    ValidateExtendedKubernetesVersionSupport (exampleHost noFiles notFoundWeb)
      (exampleSupportCluster (some "v0.21.0") "1.28" "VSphereDatacenterConfig")
      failingReader exampleK8sClient "bundles-override.yaml" =
        (.fail "getting bundle for cluster: bundle not readable",
          [.readBundles "bundles-override.yaml"]) :=
  ⟨rfl, by decide⟩

/-- C12, amended: for a cluster whose version is `v0.21.0`, for which
`ShouldSkipBundleSignatureValidation` answers to skip, and with an empty bundles
override, `ValidateExtendedKubernetesVersionSupport` returns no error for every
reader, client, disk and network, and calls none of them.  With a non-empty
bundles override, for a cluster that is not of kind `SnowDatacenterConfig`, the
bundle is read first and the cutoff test is not made: the first call is the
read of the override, a failed read is returned as the error of the check, a
bundle that is read goes on to the release manifest, and the outcome is the same
for every `ShouldSkipBundleSignatureValidation`. -/
theorem ValidateExtendedKubernetesVersionSupport_below_cutoff (h : Host)
    (clusterSpec : Cluster) (reader : Reader) (k : Client)
    (hv : clusterSpec.Spec.EksaVersion = some "v0.21.0")
    (hskip : h.ShouldSkipBundleSignatureValidation (some "v0.21.0") = .ok true) :
    ValidateExtendedKubernetesVersionSupport h clusterSpec reader k "" = (.pass, []) ∧
    (∀ bundlesOverride, bundlesOverride ≠ "" →
      clusterSpec.Spec.DatacenterRef.Kind ≠ "SnowDatacenterConfig" →
      (ValidateExtendedKubernetesVersionSupport h clusterSpec reader k bundlesOverride).2.head? =
        some (.readBundles bundlesOverride) ∧
      (∀ err, reader.Read bundlesOverride = .error err →
        ValidateExtendedKubernetesVersionSupport h clusterSpec reader k bundlesOverride =
          (.fail ("getting bundle for cluster: " ++ err), [.readBundles bundlesOverride])) ∧
      (∀ b, reader.Read bundlesOverride = .ok b →
        ValidateExtendedKubernetesVersionSupport h clusterSpec reader k bundlesOverride =
          validateWithBundle h clusterSpec k b [.readBundles bundlesOverride]) ∧
      (∀ skip : Option String → Except String Bool,
        ValidateExtendedKubernetesVersionSupport
            { h with ShouldSkipBundleSignatureValidation := skip }
            clusterSpec reader k bundlesOverride =
          ValidateExtendedKubernetesVersionSupport h clusterSpec reader k bundlesOverride)) := by
  refine ⟨?_, ?_⟩
  · unfold ValidateExtendedKubernetesVersionSupport
    by_cases hkind : clusterSpec.Spec.DatacenterRef.Kind = "SnowDatacenterConfig"
    · simp [hkind]
    · simp [hkind, hv, hskip]
  · intro bundlesOverride ho hkind
    refine ⟨?_, ?_, ?_, ?_⟩
    · unfold ValidateExtendedKubernetesVersionSupport
      simp only [if_neg hkind, if_pos ho]
      cases hr : reader.Read bundlesOverride with
      | error err => rfl
      | ok b =>
        simp only [validateWithBundle]
        cases hg : getReleaseManifestFromBundle h clusterSpec b with
        | mk res calls =>
          cases res with
          | error err => simp
          | ok m => simp
    · intro err hr
      unfold ValidateExtendedKubernetesVersionSupport
      simp only [if_neg hkind, if_pos ho, hr]
    · intro b hr
      unfold ValidateExtendedKubernetesVersionSupport
      simp only [if_neg hkind, if_pos ho, hr]
    · intro skip
      unfold ValidateExtendedKubernetesVersionSupport
      simp only [if_neg hkind, if_pos ho]
      rfl

/-- C12, amended, evaluated: a cluster at `v0.21.0` with no override, a reader that
finds nothing, no files and a network that answers 404 passes without a call;
with an override that cannot be read the first and only call is the read of
the override, and its error is returned. -/
theorem ValidateExtendedKubernetesVersionSupport_below_cutoff_witness :
    ValidateExtendedKubernetesVersionSupport (exampleHost noFiles notFoundWeb)
      (exampleSupportCluster (some "v0.21.0") "1.28" "VSphereDatacenterConfig")
      failingReader exampleK8sClient "" = (.pass, []) ∧
    ValidateExtendedKubernetesVersionSupport (exampleHost noFiles notFoundWeb)
      (exampleSupportCluster (some "v0.21.0") "1.28" "VSphereDatacenterConfig")
      failingReader exampleK8sClient "override.yaml" =
        (.fail ("getting bundle for cluster: " ++ "bundle not readable"),
          [.readBundles "override.yaml"]) :=
  ⟨(ValidateExtendedKubernetesVersionSupport_below_cutoff (exampleHost noFiles notFoundWeb)
      (exampleSupportCluster (some "v0.21.0") "1.28" "VSphereDatacenterConfig")
      failingReader exampleK8sClient rfl rfl).1,
   ((ValidateExtendedKubernetesVersionSupport_below_cutoff (exampleHost noFiles notFoundWeb)
      (exampleSupportCluster (some "v0.21.0") "1.28" "VSphereDatacenterConfig")
      failingReader exampleK8sClient rfl rfl).2 "override.yaml" (by decide) (by decide)).2.1
      "bundle not readable" rfl⟩

/-- C13: for a cluster whose datacenter kind is `SnowDatacenterConfig`,
`ValidateExtendedKubernetesVersionSupport` returns no error and makes no call, for
every host, reader, client, bundles override and version of the cluster. -/
theorem ValidateExtendedKubernetesVersionSupport_snow_passes (h : Host)
    (clusterSpec : Cluster) (reader : Reader) (k : Client) (bundlesOverride : String)
    (hkind : clusterSpec.Spec.DatacenterRef.Kind = "SnowDatacenterConfig") :
    ValidateExtendedKubernetesVersionSupport h clusterSpec reader k bundlesOverride =
      (.pass, []) := by
  simp [ValidateExtendedKubernetesVersionSupport, hkind]

/-- C13, evaluated: a Snow cluster without version, with and without an override that
cannot be read. -/
theorem ValidateExtendedKubernetesVersionSupport_snow_passes_witness :
    ValidateExtendedKubernetesVersionSupport (exampleHost noFiles notFoundWeb)
      (exampleSupportCluster none "1.28" "SnowDatacenterConfig")
      failingReader exampleK8sClient "bundles-override.yaml" = (.pass, []) ∧
    ValidateExtendedKubernetesVersionSupport (exampleHost noFiles notFoundWeb)
      (exampleSupportCluster none "1.28" "SnowDatacenterConfig")
      failingReader exampleK8sClient "" = (.pass, []) :=
  ⟨ValidateExtendedKubernetesVersionSupport_snow_passes (exampleHost noFiles notFoundWeb)
      (exampleSupportCluster none "1.28" "SnowDatacenterConfig")
      failingReader exampleK8sClient "bundles-override.yaml" rfl,
   ValidateExtendedKubernetesVersionSupport_snow_passes (exampleHost noFiles notFoundWeb)
      (exampleSupportCluster none "1.28" "SnowDatacenterConfig")
      failingReader exampleK8sClient "" rfl⟩

/-! ## Theorems on the release and the name of the management cluster -/

/-- C14, on the code: for a workload cluster without version,
`ValidateEksaReleaseExistOnManagement` ends in the dereference of the nil version
pointer, for every host, client, name, bundles reference and status. -/
theorem ValidateEksaReleaseExistOnManagement_nil_version (h : Host) (k : Client)
    (name : String) (bundlesRef : Option BundlesRef) (status : ClusterStatus) :
    ValidateEksaReleaseExistOnManagement h k (exampleCluster name none bundlesRef status) =
      .nilDeref := by
  rfl

/-- C15: when the lookup of the named cluster succeeds, `ValidateManagementClusterName`
returns an error if and only if that cluster is managed, and passes otherwise;
when the lookup fails it returns the error of the lookup. -/
theorem ValidateManagementClusterName_error_iff_managed (h : Host) (k : KubectlClient)
    (mgmtCluster : TypesCluster) (mgmtClusterName : String) :
    (∀ cluster, k.GetEksaCluster mgmtCluster mgmtClusterName = .ok cluster →
      ((ValidateManagementClusterName h k mgmtCluster mgmtClusterName).isError = true ↔
        h.IsManaged cluster = true) ∧
      (h.IsManaged cluster = true →
        ValidateManagementClusterName h k mgmtCluster mgmtClusterName =
          .fail (mgmtClusterName ++ " is not a valid management cluster")) ∧
      (h.IsManaged cluster = false →
        ValidateManagementClusterName h k mgmtCluster mgmtClusterName = .pass)) ∧
    (∀ err, k.GetEksaCluster mgmtCluster mgmtClusterName = .error err →
      ValidateManagementClusterName h k mgmtCluster mgmtClusterName = .fail err) := by
  refine ⟨?_, ?_⟩
  · intro cluster hk
    cases hm : h.IsManaged cluster with
    | true => simp [ValidateManagementClusterName, hk, hm, Result.isError]
    | false => simp [ValidateManagementClusterName, hk, hm, Result.isError]
  · intro err hk
    simp [ValidateManagementClusterName, hk]

/-- C15, evaluated: a cluster managed by another one is rejected as management cluster, a
cluster that names itself is accepted, and the error of a failed lookup is
returned as it is. -/
theorem ValidateManagementClusterName_error_iff_managed_witness :
    ValidateManagementClusterName (exampleHost noFiles notFoundWeb)
      (lookupClient (.ok (exampleManagedCluster "w1" "mgmt"))) ⟨"mgmt", "mgmt.kubeconfig"⟩ "w1" =
        .fail ("w1" ++ " is not a valid management cluster") ∧
    ValidateManagementClusterName (exampleHost noFiles notFoundWeb)
      (lookupClient (.ok (exampleManagedCluster "mgmt" "mgmt"))) ⟨"mgmt", "mgmt.kubeconfig"⟩
      "mgmt" = .pass ∧
    ValidateManagementClusterName (exampleHost noFiles notFoundWeb)
      (lookupClient (.error "cluster not found")) ⟨"mgmt", "mgmt.kubeconfig"⟩ "mgmt" =
        .fail "cluster not found" :=
  ⟨((ValidateManagementClusterName_error_iff_managed (exampleHost noFiles notFoundWeb)
      (lookupClient (.ok (exampleManagedCluster "w1" "mgmt"))) ⟨"mgmt", "mgmt.kubeconfig"⟩
      "w1").1 (exampleManagedCluster "w1" "mgmt") rfl).2.1 (by decide),
   ((ValidateManagementClusterName_error_iff_managed (exampleHost noFiles notFoundWeb)
      (lookupClient (.ok (exampleManagedCluster "mgmt" "mgmt"))) ⟨"mgmt", "mgmt.kubeconfig"⟩
      "mgmt").1 (exampleManagedCluster "mgmt" "mgmt") rfl).2.2 (by decide),
   (ValidateManagementClusterName_error_iff_managed (exampleHost noFiles notFoundWeb)
      (lookupClient (.error "cluster not found")) ⟨"mgmt", "mgmt.kubeconfig"⟩
      "mgmt").2 "cluster not found" rfl⟩

/-! ## Idempotence and the status invariant of the management/workload check -/

/-- Whether the call gets as far as the comparison depends on the spec of the workload
cluster only, not on its name or status. -/
theorem comparedVersions_congr (e : Env) (mgmtCluster cluster cluster2 : Cluster)
    (h : cluster2.Spec = cluster.Spec) :
    comparedVersions e mgmtCluster cluster2 = comparedVersions e mgmtCluster cluster := by
  unfold comparedVersions clustersHaveEksaVersion parseClusterEksaVersion
  rw [h]

/-- C16: running `ValidateManagementEksaVersion` a second time on the two clusters as the
first run left them returns the same error and leaves the failure status, and
the whole workload cluster, as the first run left it. -/
theorem ValidateManagementEksaVersion_idempotent (e : Env) (mgmtCluster cluster : Cluster) :
    (ValidateManagementEksaVersion e
        (ValidateManagementEksaVersion e mgmtCluster cluster).mgmtCluster
        (ValidateManagementEksaVersion e mgmtCluster cluster).cluster).err =
      (ValidateManagementEksaVersion e mgmtCluster cluster).err ∧
    (ValidateManagementEksaVersion e
        (ValidateManagementEksaVersion e mgmtCluster cluster).mgmtCluster
        (ValidateManagementEksaVersion e mgmtCluster cluster).cluster).cluster.Status =
      (ValidateManagementEksaVersion e mgmtCluster cluster).cluster.Status ∧
    (ValidateManagementEksaVersion e
        (ValidateManagementEksaVersion e mgmtCluster cluster).mgmtCluster
        (ValidateManagementEksaVersion e mgmtCluster cluster).cluster).cluster =
      (ValidateManagementEksaVersion e mgmtCluster cluster).cluster := by
  have key : ValidateManagementEksaVersion e
        (ValidateManagementEksaVersion e mgmtCluster cluster).mgmtCluster
        (ValidateManagementEksaVersion e mgmtCluster cluster).cluster =
      ValidateManagementEksaVersion e mgmtCluster cluster := by
    cases hcv : comparedVersions e mgmtCluster cluster with
    | none =>
      obtain ⟨h1, h2, _⟩ := ValidateManagementEksaVersion_not_compared e mgmtCluster cluster hcv
      rw [h1, h2]
    | some p =>
      obtain ⟨a, b⟩ := p
      cases hg : e.GreaterThan b a with
      | true =>
        have hV := ValidateManagementEksaVersion_greater e mgmtCluster cluster a b hcv hg
        have hcv2 : comparedVersions e mgmtCluster
            (withSkewFailure e cluster (skewMessage e b a)) = some (a, b) := by
          exact (comparedVersions_congr e mgmtCluster cluster
            (withSkewFailure e cluster (skewMessage e b a)) rfl).trans hcv
        rw [hV]
        simp only
        rw [ValidateManagementEksaVersion_greater e mgmtCluster _ a b hcv2 hg]
        rfl
      | false =>
        have hV := ValidateManagementEksaVersion_not_greater e mgmtCluster cluster a b hcv hg
        rw [hV]
        simp only
        by_cases hr : cluster.Status.FailureReason = some e.EksaVersionInvalidReason
        · rw [if_pos hr]
          have hcv2 : comparedVersions e mgmtCluster (withFailureCleared cluster) =
              some (a, b) := by
            exact (comparedVersions_congr e mgmtCluster cluster
              (withFailureCleared cluster) rfl).trans hcv
          rw [ValidateManagementEksaVersion_not_greater e mgmtCluster _ a b hcv2 hg]
          simp [withFailureCleared]
        · rw [if_neg hr, hV, if_neg hr]
  rw [key]
  exact ⟨rfl, rfl, rfl⟩

/-- C17: if the failure reason of the workload cluster is missing exactly when its failure
message is missing, the same holds after `ValidateManagementEksaVersion`; and
the status after the call is the status before it, or has both fields set, or
has both fields empty. -/
theorem ValidateManagementEksaVersion_single_slot (e : Env) (mgmtCluster cluster : Cluster) :
    ((cluster.Status.FailureReason = none ↔ cluster.Status.FailureMessage = none) →
      ((ValidateManagementEksaVersion e mgmtCluster cluster).cluster.Status.FailureReason = none ↔
        (ValidateManagementEksaVersion e mgmtCluster cluster).cluster.Status.FailureMessage
          = none)) ∧
    ((ValidateManagementEksaVersion e mgmtCluster cluster).cluster.Status = cluster.Status ∨
      (∃ msg, (ValidateManagementEksaVersion e mgmtCluster cluster).cluster.Status =
        ⟨some msg, some e.EksaVersionInvalidReason⟩) ∨
      (ValidateManagementEksaVersion e mgmtCluster cluster).cluster.Status = ⟨none, none⟩) := by
  cases hcv : comparedVersions e mgmtCluster cluster with
  | none =>
    obtain ⟨_, h2, _⟩ := ValidateManagementEksaVersion_not_compared e mgmtCluster cluster hcv
    rw [h2]
    exact ⟨fun hpre => hpre, Or.inl rfl⟩
  | some p =>
    obtain ⟨a, b⟩ := p
    cases hg : e.GreaterThan b a with
    | true =>
      rw [ValidateManagementEksaVersion_greater e mgmtCluster cluster a b hcv hg]
      refine ⟨fun _ => ?_, Or.inr (Or.inl ⟨skewMessage e b a, rfl⟩)⟩
      simp [withSkewFailure]
    | false =>
      rw [ValidateManagementEksaVersion_not_greater e mgmtCluster cluster a b hcv hg]
      by_cases hr : cluster.Status.FailureReason = some e.EksaVersionInvalidReason
      · rw [if_pos hr]
        refine ⟨fun _ => ?_, Or.inr (Or.inr rfl)⟩
        simp [withFailureCleared]
      · rw [if_neg hr]
        exact ⟨fun hpre => hpre, Or.inl rfl⟩

/-- C17, evaluated: an empty status stays empty on a pass, becomes a status with both
fields on a skew violation, and a stale failure is cleared in both fields. -/
theorem ValidateManagementEksaVersion_single_slot_witness :
    ((ValidateManagementEksaVersion stdEnv
        (exampleCluster "mgmt" (some "v0.19.0") none noFailure)
        (exampleCluster "w" (some "v0.20.0") none noFailure)).cluster.Status.FailureReason = none ↔
      (ValidateManagementEksaVersion stdEnv
        (exampleCluster "mgmt" (some "v0.19.0") none noFailure)
        (exampleCluster "w" (some "v0.20.0") none noFailure)).cluster.Status.FailureMessage
          = none) ∧
    ((ValidateManagementEksaVersion stdEnv
        (exampleCluster "mgmt" (some "v0.20.0") none noFailure)
        (exampleCluster "w" (some "v0.20.0") none staleFailure)).cluster.Status.FailureReason
          = none ↔
      (ValidateManagementEksaVersion stdEnv
        (exampleCluster "mgmt" (some "v0.20.0") none noFailure)
        (exampleCluster "w" (some "v0.20.0") none staleFailure)).cluster.Status.FailureMessage
          = none) :=
  ⟨(ValidateManagementEksaVersion_single_slot stdEnv
      (exampleCluster "mgmt" (some "v0.19.0") none noFailure)
      (exampleCluster "w" (some "v0.20.0") none noFailure)).1 (by decide),
   (ValidateManagementEksaVersion_single_slot stdEnv
      (exampleCluster "mgmt" (some "v0.20.0") none noFailure)
      (exampleCluster "w" (some "v0.20.0") none staleFailure)).1 (by decide)⟩

/-- C16, evaluated: the second run after a skew violation returns the same error and
keeps the status that the first run has set. -/
theorem ValidateManagementEksaVersion_idempotent_witness :
    (ValidateManagementEksaVersion stdEnv
        (ValidateManagementEksaVersion stdEnv
          (exampleCluster "mgmt" (some "v0.19.0") none noFailure)
          (exampleCluster "w" (some "v0.20.0") none noFailure)).mgmtCluster
        (ValidateManagementEksaVersion stdEnv
          (exampleCluster "mgmt" (some "v0.19.0") none noFailure)
          (exampleCluster "w" (some "v0.20.0") none noFailure)).cluster).err =
      (ValidateManagementEksaVersion stdEnv
        (exampleCluster "mgmt" (some "v0.19.0") none noFailure)
        (exampleCluster "w" (some "v0.20.0") none noFailure)).err :=
  (ValidateManagementEksaVersion_idempotent stdEnv
    (exampleCluster "mgmt" (some "v0.19.0") none noFailure)
    (exampleCluster "w" (some "v0.20.0") none noFailure)).1

/-! ## Theorems on the retrieval of the release manifest -/

/-- What `startsWithChars` decides. -/
theorem startsWithChars_iff (s p : List Char) :
    startsWithChars s p = true ↔ ∃ t, s = p ++ t := by
  induction p generalizing s with
  | nil => cases s <;> simp [startsWithChars]
  | cons d ds ih =>
    cases s with
    | nil => simp [startsWithChars]
    | cons c cs =>
      simp only [startsWithChars, Bool.and_eq_true, beq_iff_eq, ih, List.cons_append,
        List.cons.injEq]
      constructor
      · rintro ⟨hcd, t, ht⟩
        exact ⟨t, hcd, ht⟩
      · rintro ⟨t, hcd, ht⟩
        exact ⟨hcd, t, ht⟩

/-- What `containsChars` decides. -/
theorem containsChars_iff (s sub : List Char) :
    containsChars s sub = true ↔ ∃ a b, s = a ++ sub ++ b := by
  induction s with
  | nil =>
    simp only [containsChars, List.isEmpty_iff]
    constructor
    · intro h; exact ⟨[], [], by simp [h]⟩
    · rintro ⟨a, b, hab⟩
      have hlen := congrArg List.length hab
      simp only [List.length_nil, List.length_append] at hlen
      exact List.length_eq_zero.mp (by omega)
  | cons c cs ih =>
    simp only [containsChars, Bool.or_eq_true, startsWithChars_iff, ih]
    constructor
    · rintro (⟨t, ht⟩ | ⟨a, b, hab⟩)
      · exact ⟨[], t, by simpa using ht⟩
      · exact ⟨c :: a, b, by simp [hab]⟩
    · rintro ⟨a, b, hab⟩
      cases a with
      | nil => exact Or.inl ⟨b, by simpa using hab⟩
      | cons x a2 =>
        simp only [List.cons_append, List.cons.injEq] at hab
        exact Or.inr ⟨a2, b, hab.2⟩

/-- The model of `strings.Contains` holds exactly when the second text occurs in the
first. -/
theorem stringsContains_iff (s substr : String) :
    stringsContains s substr = true ↔ ∃ a b : List Char, s.data = a ++ substr.data ++ b := by
  unfold stringsContains
  exact containsChars_iff s.data substr.data

/-- C18: once the versions bundle is found, `getReleaseManifestFromBundle` makes exactly
one call: a read of the release reference from the disk when the reference
contains `eks-anywhere-downloads`, and one HTTP GET of it otherwise.  A failed
read, a failed GET and a status code other than 200 each give an error and no
manifest. -/
theorem getReleaseManifestFromBundle_one_retrieval (h : Host) (clusterSpec : Cluster)
    (bundle : Bundles) (versionsBundle : VersionsBundle)
    (hvb : h.GetVersionsBundle clusterSpec.Spec.KubernetesVersion bundle = .ok versionsBundle) :
    (stringsContains versionsBundle.EksD.EksDReleaseUrl "eks-anywhere-downloads" = true →
      (getReleaseManifestFromBundle h clusterSpec bundle).2 =
        [.readFile versionsBundle.EksD.EksDReleaseUrl]) ∧
    (stringsContains versionsBundle.EksD.EksDReleaseUrl "eks-anywhere-downloads" = false →
      (getReleaseManifestFromBundle h clusterSpec bundle).2 =
        [.httpGet versionsBundle.EksD.EksDReleaseUrl]) ∧
    (∀ err,
      stringsContains versionsBundle.EksD.EksDReleaseUrl "eks-anywhere-downloads" = true →
      h.ReadFile versionsBundle.EksD.EksDReleaseUrl = .error err →
      (getReleaseManifestFromBundle h clusterSpec bundle).1 =
        .error ("reading eksd release manifest file: " ++ err)) ∧
    (∀ err,
      stringsContains versionsBundle.EksD.EksDReleaseUrl "eks-anywhere-downloads" = false →
      h.HttpGet versionsBundle.EksD.EksDReleaseUrl = .error err →
      (getReleaseManifestFromBundle h clusterSpec bundle).1 =
        .error ("fetching eksd release manifest from URL " ++
          versionsBundle.EksD.EksDReleaseUrl ++ ": " ++ err)) ∧
    (∀ resp,
      stringsContains versionsBundle.EksD.EksDReleaseUrl "eks-anywhere-downloads" = false →
      h.HttpGet versionsBundle.EksD.EksDReleaseUrl = .ok resp → resp.StatusCode ≠ 200 →
      (getReleaseManifestFromBundle h clusterSpec bundle).1 =
        .error ("fetching eksd release manifest from URL " ++
          versionsBundle.EksD.EksDReleaseUrl ++ ": received status code " ++
          toString resp.StatusCode)) := by
  refine ⟨?_, ?_, ?_, ?_, ?_⟩
  · intro hc
    unfold getReleaseManifestFromBundle
    simp only [hvb, hc, if_true]
    cases hr : h.ReadFile versionsBundle.EksD.EksDReleaseUrl with
    | error err => rfl
    | ok contents =>
      cases hu : h.Unmarshal contents with
      | error err => simp [hu]
      | ok m => simp [hu]
  · intro hc
    unfold getReleaseManifestFromBundle
    simp only [hvb, hc]
    cases h.HttpGet versionsBundle.EksD.EksDReleaseUrl with
    | error err => rfl
    | ok resp =>
      by_cases hs : resp.StatusCode ≠ 200
      · simp [hs]
      · obtain ⟨code, body⟩ := resp
        cases body with
        | error err => simp [hs]
        | ok contents =>
          cases hu : h.Unmarshal contents with
          | error err => simp [hs, hu]
          | ok m => simp [hs, hu]
  · intro err hc hr
    unfold getReleaseManifestFromBundle
    simp only [hvb, hc, hr, if_true]
  · intro err hc hg
    unfold getReleaseManifestFromBundle
    simp [hvb, hc, hg]
  · intro resp hc hg hs
    unfold getReleaseManifestFromBundle
    simp [hvb, hc, hg, hs]

/-- C18, evaluated: a release reference on the network that answers 404 is fetched once
and gives an error; a reference under `eks-anywhere-downloads` whose file is
missing is read once from the disk and gives an error. -/
theorem getReleaseManifestFromBundle_one_retrieval_witness :
    ((getReleaseManifestFromBundle (exampleHost noFiles notFoundWeb)
        (exampleSupportCluster (some "v0.23.0") "1.28" "VSphereDatacenterConfig")
        (exampleBundles "1.28" "https://distro.example.com/kubernetes-1-28/release.yaml")).2 =
        [.httpGet "https://distro.example.com/kubernetes-1-28/release.yaml"] ∧
      (getReleaseManifestFromBundle (exampleHost noFiles notFoundWeb)
        (exampleSupportCluster (some "v0.23.0") "1.28" "VSphereDatacenterConfig")
        (exampleBundles "1.28" "https://distro.example.com/kubernetes-1-28/release.yaml")).1 =
        .error ("fetching eksd release manifest from URL " ++
          "https://distro.example.com/kubernetes-1-28/release.yaml" ++
          ": received status code " ++ toString (404 : Int))) ∧
    ((getReleaseManifestFromBundle (exampleHost noFiles notFoundWeb)
        (exampleSupportCluster (some "v0.23.0") "1.28" "VSphereDatacenterConfig")
        (exampleBundles "1.28" "/var/eks-anywhere-downloads/kubernetes-1-28/release.yaml")).2 =
        [.readFile "/var/eks-anywhere-downloads/kubernetes-1-28/release.yaml"] ∧
      (getReleaseManifestFromBundle (exampleHost noFiles notFoundWeb)
        (exampleSupportCluster (some "v0.23.0") "1.28" "VSphereDatacenterConfig")
        (exampleBundles "1.28" "/var/eks-anywhere-downloads/kubernetes-1-28/release.yaml")).1 =
        .error ("reading eksd release manifest file: " ++
          ("open " ++ "/var/eks-anywhere-downloads/kubernetes-1-28/release.yaml" ++
            ": no such file or directory"))) :=
  ⟨⟨(getReleaseManifestFromBundle_one_retrieval (exampleHost noFiles notFoundWeb)
        (exampleSupportCluster (some "v0.23.0") "1.28" "VSphereDatacenterConfig")
        (exampleBundles "1.28" "https://distro.example.com/kubernetes-1-28/release.yaml")
        ⟨"1.28", ⟨"https://distro.example.com/kubernetes-1-28/release.yaml"⟩⟩ rfl).2.1
        (by decide),
     (getReleaseManifestFromBundle_one_retrieval (exampleHost noFiles notFoundWeb)
        (exampleSupportCluster (some "v0.23.0") "1.28" "VSphereDatacenterConfig")
        (exampleBundles "1.28" "https://distro.example.com/kubernetes-1-28/release.yaml")
        ⟨"1.28", ⟨"https://distro.example.com/kubernetes-1-28/release.yaml"⟩⟩ rfl).2.2.2.2
        ⟨404, .ok "not found"⟩ (by decide) rfl (by decide)⟩,
   ⟨(getReleaseManifestFromBundle_one_retrieval (exampleHost noFiles notFoundWeb)
        (exampleSupportCluster (some "v0.23.0") "1.28" "VSphereDatacenterConfig")
        (exampleBundles "1.28" "/var/eks-anywhere-downloads/kubernetes-1-28/release.yaml")
        ⟨"1.28", ⟨"/var/eks-anywhere-downloads/kubernetes-1-28/release.yaml"⟩⟩ rfl).1
        (by decide),
     (getReleaseManifestFromBundle_one_retrieval (exampleHost noFiles notFoundWeb)
        (exampleSupportCluster (some "v0.23.0") "1.28" "VSphereDatacenterConfig")
        (exampleBundles "1.28" "/var/eks-anywhere-downloads/kubernetes-1-28/release.yaml")
        ⟨"1.28", ⟨"/var/eks-anywhere-downloads/kubernetes-1-28/release.yaml"⟩⟩ rfl).2.2.1
        ("open " ++ "/var/eks-anywhere-downloads/kubernetes-1-28/release.yaml" ++
          ": no such file or directory") (by decide) rfl⟩⟩

/-! ## Theorems on the registry mirror certificate -/

/-- C19: `ValidateCertForRegistryMirror` passes without a call to the TLS validator when
no registry mirror is configured or `InsecureSkipVerify` is set.  Otherwise it
fails when the authority check gives an error; fails when the authority is
unknown and no certificate content is given; with certificate content it calls
the certificate validation and passes or fails with it, the error wrapped; and
it passes when the authority is known and no certificate content is given. -/
theorem ValidateCertForRegistryMirror_decision_table (clusterSpec : Spec)
    (tlsValidator : TlsValidator) :
    (clusterSpec.Cluster.Spec.RegistryMirrorConfiguration = none →
      ValidateCertForRegistryMirror clusterSpec tlsValidator = (.pass, [])) ∧
    (∀ mirror, clusterSpec.Cluster.Spec.RegistryMirrorConfiguration = some mirror →
      (mirror.InsecureSkipVerify = true →
        ValidateCertForRegistryMirror clusterSpec tlsValidator = (.pass, [])) ∧
      (mirror.InsecureSkipVerify = false →
        (∀ err, tlsValidator.IsSignedByUnknownAuthority mirror.Endpoint mirror.Port = .error err →
          ValidateCertForRegistryMirror clusterSpec tlsValidator =
            (.fail ("validating registry mirror endpoint: " ++ err),
              [.isSignedByUnknownAuthority mirror.Endpoint mirror.Port])) ∧
        (tlsValidator.IsSignedByUnknownAuthority mirror.Endpoint mirror.Port = .ok true →
          mirror.CACertContent = "" →
          (ValidateCertForRegistryMirror clusterSpec tlsValidator).1.isError = true ∧
          (ValidateCertForRegistryMirror clusterSpec tlsValidator).2 =
            [.isSignedByUnknownAuthority mirror.Endpoint mirror.Port]) ∧
        (∀ authorityUnknown,
          tlsValidator.IsSignedByUnknownAuthority mirror.Endpoint mirror.Port =
            .ok authorityUnknown →
          mirror.CACertContent ≠ "" →
          (∀ err,
            tlsValidator.ValidateCert mirror.Endpoint mirror.Port mirror.CACertContent =
              some err →
            ValidateCertForRegistryMirror clusterSpec tlsValidator =
              (.fail ("invalid registry certificate: " ++ err),
                [.isSignedByUnknownAuthority mirror.Endpoint mirror.Port,
                 .validateCert mirror.Endpoint mirror.Port mirror.CACertContent])) ∧
          (tlsValidator.ValidateCert mirror.Endpoint mirror.Port mirror.CACertContent = none →
            ValidateCertForRegistryMirror clusterSpec tlsValidator =
              (.pass,
                [.isSignedByUnknownAuthority mirror.Endpoint mirror.Port,
                 .validateCert mirror.Endpoint mirror.Port mirror.CACertContent]))) ∧
        (tlsValidator.IsSignedByUnknownAuthority mirror.Endpoint mirror.Port = .ok false →
          mirror.CACertContent = "" →
          ValidateCertForRegistryMirror clusterSpec tlsValidator =
            (.pass, [.isSignedByUnknownAuthority mirror.Endpoint mirror.Port])))) := by
  refine ⟨?_, ?_⟩
  · intro hnone
    simp [ValidateCertForRegistryMirror, hnone]
  · intro mirror hm
    refine ⟨?_, ?_⟩
    · intro hskip
      simp [ValidateCertForRegistryMirror, hm, hskip]
    · intro hskip
      refine ⟨?_, ?_, ?_, ?_⟩
      · intro err ha
        simp [ValidateCertForRegistryMirror, hm, hskip, ha]
      · intro ha hcert
        simp [ValidateCertForRegistryMirror, hm, hskip, ha, hcert, Result.isError]
      · intro authorityUnknown ha hcert
        refine ⟨?_, ?_⟩
        · intro err hv
          simp [ValidateCertForRegistryMirror, hm, hskip, ha, hcert, hv]
        · intro hv
          simp [ValidateCertForRegistryMirror, hm, hskip, ha, hcert, hv]
      · intro ha hcert
        simp [ValidateCertForRegistryMirror, hm, hskip, ha, hcert]

/-- C19, evaluated: no mirror; a mirror with `InsecureSkipVerify`; an unknown authority
without certificate content; a known authority without certificate content; a
certificate that the validator rejects. -/
theorem ValidateCertForRegistryMirror_decision_table_witness :
    ValidateCertForRegistryMirror (exampleMirrorSpec none)
      (exampleTlsValidator (.error "dial tcp: timeout") (some "bad certificate")) =
        (.pass, []) ∧
    ValidateCertForRegistryMirror (exampleMirrorSpec (some (exampleMirror "" true)))
      (exampleTlsValidator (.error "dial tcp: timeout") (some "bad certificate")) =
        (.pass, []) ∧
    (ValidateCertForRegistryMirror (exampleMirrorSpec (some (exampleMirror "" false)))
      (exampleTlsValidator (.ok true) none)).1.isError = true ∧
    ValidateCertForRegistryMirror (exampleMirrorSpec (some (exampleMirror "" false)))
      (exampleTlsValidator (.ok false) none) =
        (.pass, [.isSignedByUnknownAuthority "registry.local" "443"]) ∧
    ValidateCertForRegistryMirror (exampleMirrorSpec (some (exampleMirror "CERT" false)))
      (exampleTlsValidator (.ok true) (some "bad certificate")) =
        (.fail ("invalid registry certificate: " ++ "bad certificate"),
          [.isSignedByUnknownAuthority "registry.local" "443",
           .validateCert "registry.local" "443" "CERT"]) :=
  ⟨(ValidateCertForRegistryMirror_decision_table (exampleMirrorSpec none)
      (exampleTlsValidator (.error "dial tcp: timeout") (some "bad certificate"))).1 rfl,
   ((ValidateCertForRegistryMirror_decision_table
      (exampleMirrorSpec (some (exampleMirror "" true)))
      (exampleTlsValidator (.error "dial tcp: timeout") (some "bad certificate"))).2
      (exampleMirror "" true) rfl).1 rfl,
   ((((ValidateCertForRegistryMirror_decision_table
      (exampleMirrorSpec (some (exampleMirror "" false)))
      (exampleTlsValidator (.ok true) none)).2
      (exampleMirror "" false) rfl).2 rfl).2.1 rfl rfl).1,
   (((ValidateCertForRegistryMirror_decision_table
      (exampleMirrorSpec (some (exampleMirror "" false)))
      (exampleTlsValidator (.ok false) none)).2
      (exampleMirror "" false) rfl).2 rfl).2.2.2 rfl rfl,
   ((((ValidateCertForRegistryMirror_decision_table
      (exampleMirrorSpec (some (exampleMirror "CERT" false)))
      (exampleTlsValidator (.ok true) (some "bad certificate"))).2
      (exampleMirror "CERT" false) rfl).2 rfl).2.2.1 true rfl (by decide)).1
      "bad certificate" rfl⟩

/-! ## The management-components check at large components -/

/-- The range of the parser model: every component of a parsed version is below `2^63`. -/
theorem semverNew_range (s : String) (p : Version) (h : semverNew s = .ok p) :
    p.Major < 2 ^ 63 ∧ p.Minor < 2 ^ 63 ∧ p.Patch < 2 ^ 63 := by
  unfold semverNew at h
  simp only at h
  split at h
  · split at h
    · rename_i hcond
      injection h with h
      subst h
      simp only [Bool.and_eq_true, decide_eq_true_eq] at hcond
      exact ⟨hcond.1.1.1.1.2, hcond.1.1.1.2, hcond.1.1.2⟩
    · cases h
  · cases h

end Validations
